import Mathlib

/-!
Shallow embedding of the Napoleonic-Game real-time battle simulation
(`js/config.js`, `js/Unit.js`, `js/CombatSystem.js`, `js/LOSSystem.js`,
`js/ReloadSystem.js`, the `ExhaustionSystem`, the `GameEngine` update loop and
the multiplayer `GameStateSync` layer), together with proofs settling the
frozen claims about it.

Modelling conventions:
* JavaScript numbers are modelled as real numbers (`ℝ`); `null`/`undefined`
  valued fields are modelled with `Option`.
* `Math.random()` draws are passed in explicitly, either as named real
  parameters (for the pure damage/accuracy pipelines) or as a stream of reals
  threaded through a state monad (for the full engine tick).
* Object references into the unit registry (a unit's `currentTarget`, the
  members of `selectedUnits`) are modelled by the referenced unit's integer
  id, resolved against the registry list exactly where the source resolves
  the reference.
-/

noncomputable section

namespace Game

/-- Unit types: `'INFANTRY' | 'CAVALRY' | 'CANNON'`. -/
inductive UnitType where
  | INFANTRY | CAVALRY | CANNON
deriving DecidableEq, Repr

/-- Teams: `'RED' | 'BLUE'`. -/
inductive Team where
  | RED | BLUE
deriving DecidableEq, Repr

/-- Formations: `'LINE' | 'COLUMN' | 'SQUARE'`; the absent formation is
`Option.none` (JS `null`). -/
inductive Formation where
  | LINE | COLUMN | SQUARE
deriving DecidableEq, Repr

/-- JavaScript `x || 1.0` on a number: `0` (the only falsy number that occurs
here) falls back to `1.0`. -/
def jsOr1 (x : ℝ) : ℝ := if x = 0 then 1.0 else x

/-! Configuration constants, from `js/config.js`. -/

def CONFIG.CANVAS_WIDTH : ℝ := 1200
def CONFIG.CANVAS_HEIGHT : ℝ := 800

def CONFIG.INFANTRY.ENTITY_COUNT : ℝ := 100
def CONFIG.INFANTRY.MAX_SPEED : ℝ := 80
def CONFIG.INFANTRY.TURN_RATE : ℝ := 0.8
def CONFIG.INFANTRY.COLLISION_RADIUS : ℝ := 12
def CONFIG.INFANTRY.BASE_DAMAGE : ℝ := 35
def CONFIG.INFANTRY.MELEE_DAMAGE : ℝ := 0.15
def CONFIG.INFANTRY.FIRE_RANGE : ℝ := 250
def CONFIG.INFANTRY.RELOAD_DURATION : ℝ := 15
def CONFIG.INFANTRY.SIZE : ℝ := 20

def CONFIG.CAVALRY.ENTITY_COUNT : ℝ := 50
def CONFIG.CAVALRY.MAX_SPEED : ℝ := 150
def CONFIG.CAVALRY.TURN_RATE : ℝ := 0.5
def CONFIG.CAVALRY.COLLISION_RADIUS : ℝ := 15
def CONFIG.CAVALRY.BASE_DAMAGE : ℝ := 20
def CONFIG.CAVALRY.MELEE_DAMAGE : ℝ := 0.25
def CONFIG.CAVALRY.CHARGE_SPEED : ℝ := 120
def CONFIG.CAVALRY.CHARGE_MULTIPLIER : ℝ := 3.0
def CONFIG.CAVALRY.SIZE : ℝ := 20

def CONFIG.CANNON.ENTITY_COUNT : ℝ := 15
def CONFIG.CANNON.MAX_SPEED : ℝ := 30
def CONFIG.CANNON.TURN_RATE : ℝ := 0.3
def CONFIG.CANNON.COLLISION_RADIUS : ℝ := 15
def CONFIG.CANNON.BASE_DAMAGE : ℝ := 60
def CONFIG.CANNON.MELEE_DAMAGE : ℝ := 0.05
def CONFIG.CANNON.FIRE_RANGE : ℝ := 700
def CONFIG.CANNON.RELOAD_DURATION : ℝ := 30
def CONFIG.CANNON.SIZE : ℝ := 18

def CONFIG.FORMATION.LINE.ACCURACY_BONUS : ℝ := 1.1
def CONFIG.FORMATION.LINE.RELOAD_BONUS : ℝ := 0.9
def CONFIG.FORMATION.LINE.MOVEMENT_PENALTY : ℝ := 0.9
def CONFIG.FORMATION.LINE.FIRE_ARC : ℝ := Real.pi / 2
def CONFIG.FORMATION.COLUMN.MOVEMENT_BONUS : ℝ := 1.3
def CONFIG.FORMATION.COLUMN.VULNERABILITY : ℝ := 1.5
def CONFIG.FORMATION.COLUMN.FIRE_ARC : ℝ := Real.pi / 2
def CONFIG.FORMATION.SQUARE.MOVEMENT_PENALTY : ℝ := 0
def CONFIG.FORMATION.SQUARE.CAVALRY_DEFENSE : ℝ := 3.0
def CONFIG.FORMATION.SQUARE.FIRE_ARC : ℝ := Real.pi * 2

def CONFIG.DAMAGE.CAVALRY_VS_INFANTRY_BONUS : ℝ := 5.0
def CONFIG.DAMAGE.SQUARE_VS_CAVALRY_BONUS : ℝ := 4.0
def CONFIG.DAMAGE.REAR_MULTIPLIER : ℝ := 3.0
def CONFIG.DAMAGE.FLANK_MULTIPLIER : ℝ := 2.0
def CONFIG.DAMAGE.FRONT_MULTIPLIER : ℝ := 1.0
def CONFIG.DAMAGE.REAR_ANGLE : ℝ := Real.pi / 3
def CONFIG.DAMAGE.FLANK_ANGLE : ℝ := 2 * Real.pi / 3

def CONFIG.ACCURACY.SHORT_MIN : ℝ := 0.80
def CONFIG.ACCURACY.SHORT_MAX : ℝ := 0.90
def CONFIG.ACCURACY.MEDIUM_MIN : ℝ := 0.50
def CONFIG.ACCURACY.MEDIUM_MAX : ℝ := 0.70
def CONFIG.ACCURACY.LONG_MIN : ℝ := 0.20
def CONFIG.ACCURACY.LONG_MAX : ℝ := 0.40

def CONFIG.CANNON_ACCURACY.CLOSE_RANGE : ℝ := 100
def CONFIG.CANNON_ACCURACY.MEDIUM_RANGE : ℝ := 300
def CONFIG.CANNON_ACCURACY.CLOSE_MIN : ℝ := 0.60
def CONFIG.CANNON_ACCURACY.CLOSE_MAX : ℝ := 0.75
def CONFIG.CANNON_ACCURACY.MEDIUM_MIN : ℝ := 0.30
def CONFIG.CANNON_ACCURACY.MEDIUM_MAX : ℝ := 0.45
def CONFIG.CANNON_ACCURACY.LONG_MIN : ℝ := 0.10
def CONFIG.CANNON_ACCURACY.LONG_MAX : ℝ := 0.25

def CONFIG.EXHAUSTION.MOVEMENT_RATE : ℝ := 0.1
def CONFIG.EXHAUSTION.COLUMN_MOVEMENT_RATE : ℝ := 0.05
def CONFIG.EXHAUSTION.COMBAT_RATE : ℝ := 5.0
def CONFIG.EXHAUSTION.RECOVERY_RATE : ℝ := 0.08
def CONFIG.EXHAUSTION.MAX : ℝ := 100
def CONFIG.EXHAUSTION.SPEED_PENALTY : ℝ := 0.5
def CONFIG.EXHAUSTION.ACCURACY_PENALTY : ℝ := 0.3
def CONFIG.EXHAUSTION.RELOAD_PENALTY : ℝ := 0.5

def CONFIG.LOS.SAMPLE_RATE : ℝ := 5

/-- The unit state record, from the `Unit` constructor in `js/Unit.js`.
Fields that the constructor only creates for some unit types (for example
`chargeSpeed` for cavalry, `fireRange` for ranged types) are present for all
units and are given the JS-falsy default `0`/`false`/`none` for the types
whose constructor leaves them `undefined`; the source never reads them for
those types. -/
structure Unit where
  id : ℕ
  type' : UnitType
  team : Team
  x : ℝ
  y : ℝ
  vx : ℝ
  vy : ℝ
  angle : ℝ
  targetX : Option ℝ
  targetY : Option ℝ
  entityCount : ℝ
  maxEntityCount : ℝ
  baseMaxSpeed : ℝ
  maxSpeed : ℝ
  turnRate : ℝ
  collisionRadius : ℝ
  baseDamage : ℝ
  meleeDamage : ℝ
  size : ℝ
  fireRange : ℝ
  isReloading : Bool
  reloadProgress : ℝ
  reloadDuration : ℝ
  canFire : Bool
  currentTarget : Option ℕ
  lastFireTime : ℝ
  chargeSpeed : ℝ
  chargeDamageMultiplier : ℝ
  formation : Option Formation
  formationAngle : ℝ
  fireRateBonus : ℝ
  accuracyBonus : ℝ
  movementBonus : ℝ
  movementPenalty : ℝ
  vulnerabilityMultiplier : ℝ
  directionalDefense : Bool
  damageBonus : ℝ
  cavalryDefense : ℝ
  exhaustion : ℝ
  speedMultiplier : ℝ
  accuracyMultiplier : ℝ
  reloadMultiplier : ℝ
  isSelected : Bool
  speed : ℝ
  isMeleeLocked : Bool
  wasMeleeLocked : Bool
  meleeTimer : ℝ
  isFleeing : Bool
  lastMeleeTime : Option ℝ

namespace Unit

/-- The `Unit` constructor (`new Unit(id, type, team, x, y)`). -/
def new (id : ℕ) (ty : UnitType) (team : Team) (x y : ℝ) : Unit :=
  let base : Unit :=
    { id := id, type' := ty, team := team, x := x, y := y
      vx := 0, vy := 0, angle := 0, targetX := none, targetY := none
      entityCount := 0, maxEntityCount := 0, baseMaxSpeed := 0, maxSpeed := 0
      turnRate := 0, collisionRadius := 0, baseDamage := 0, meleeDamage := 0
      size := 0, fireRange := 0
      isReloading := false, reloadProgress := 0, reloadDuration := 0
      canFire := false, currentTarget := none, lastFireTime := 0
      chargeSpeed := 0, chargeDamageMultiplier := 0
      formation := none, formationAngle := 0
      fireRateBonus := 1.0, accuracyBonus := 1.0, movementBonus := 1.0
      movementPenalty := 1.0, vulnerabilityMultiplier := 1.0
      directionalDefense := false, damageBonus := 1.0, cavalryDefense := 1.0
      exhaustion := 0
      speedMultiplier := 1.0, accuracyMultiplier := 1.0, reloadMultiplier := 1.0
      isSelected := false, speed := 0
      isMeleeLocked := false, wasMeleeLocked := false, meleeTimer := 0
      isFleeing := false, lastMeleeTime := none }
  match ty with
  | .INFANTRY =>
      { base with
        entityCount := CONFIG.INFANTRY.ENTITY_COUNT
        maxEntityCount := CONFIG.INFANTRY.ENTITY_COUNT
        baseMaxSpeed := CONFIG.INFANTRY.MAX_SPEED
        maxSpeed := CONFIG.INFANTRY.MAX_SPEED
        turnRate := CONFIG.INFANTRY.TURN_RATE
        collisionRadius := CONFIG.INFANTRY.COLLISION_RADIUS
        baseDamage := CONFIG.INFANTRY.BASE_DAMAGE
        meleeDamage := CONFIG.INFANTRY.MELEE_DAMAGE
        size := CONFIG.INFANTRY.SIZE
        fireRange := CONFIG.INFANTRY.FIRE_RANGE
        isReloading := false, reloadProgress := 0
        reloadDuration := CONFIG.INFANTRY.RELOAD_DURATION
        canFire := true, currentTarget := none, lastFireTime := 0 }
  | .CAVALRY =>
      { base with
        entityCount := CONFIG.CAVALRY.ENTITY_COUNT
        maxEntityCount := CONFIG.CAVALRY.ENTITY_COUNT
        baseMaxSpeed := CONFIG.CAVALRY.MAX_SPEED
        maxSpeed := CONFIG.CAVALRY.MAX_SPEED
        turnRate := CONFIG.CAVALRY.TURN_RATE
        collisionRadius := CONFIG.CAVALRY.COLLISION_RADIUS
        baseDamage := CONFIG.CAVALRY.BASE_DAMAGE
        meleeDamage := CONFIG.CAVALRY.MELEE_DAMAGE
        size := CONFIG.CAVALRY.SIZE
        chargeSpeed := CONFIG.CAVALRY.CHARGE_SPEED
        chargeDamageMultiplier := CONFIG.CAVALRY.CHARGE_MULTIPLIER }
  | .CANNON =>
      { base with
        entityCount := CONFIG.CANNON.ENTITY_COUNT
        maxEntityCount := CONFIG.CANNON.ENTITY_COUNT
        baseMaxSpeed := CONFIG.CANNON.MAX_SPEED
        maxSpeed := CONFIG.CANNON.MAX_SPEED
        turnRate := CONFIG.CANNON.TURN_RATE
        collisionRadius := CONFIG.CANNON.COLLISION_RADIUS
        baseDamage := CONFIG.CANNON.BASE_DAMAGE
        meleeDamage := CONFIG.CANNON.MELEE_DAMAGE
        size := CONFIG.CANNON.SIZE
        fireRange := CONFIG.CANNON.FIRE_RANGE
        isReloading := false, reloadProgress := 0
        reloadDuration := CONFIG.CANNON.RELOAD_DURATION
        canFire := true, currentTarget := none, lastFireTime := 0 }

/-- Embeds `Unit.setFormation(formationType)`: reset all modifiers, then apply the
formation-specific ones. -/
def setFormation (u : Unit) (formationType : Option Formation) : Unit :=
  let r : Unit :=
    { u with
      formation := formationType
      fireRateBonus := 1.0, accuracyBonus := 1.0, movementBonus := 1.0
      movementPenalty := 1.0, vulnerabilityMultiplier := 1.0
      damageBonus := 1.0, directionalDefense := false, cavalryDefense := 1.0
      maxSpeed := u.baseMaxSpeed }
  match formationType with
  | some .LINE =>
      { r with
        accuracyBonus := CONFIG.FORMATION.LINE.ACCURACY_BONUS
        fireRateBonus := CONFIG.FORMATION.LINE.RELOAD_BONUS
        movementPenalty := CONFIG.FORMATION.LINE.MOVEMENT_PENALTY
        damageBonus := 1.2 }
  | some .COLUMN =>
      { r with
        movementBonus := CONFIG.FORMATION.COLUMN.MOVEMENT_BONUS
        vulnerabilityMultiplier := CONFIG.FORMATION.COLUMN.VULNERABILITY
        damageBonus := 1.3 }
  | some .SQUARE =>
      { r with
        maxSpeed := 0
        directionalDefense := true
        cavalryDefense := CONFIG.FORMATION.SQUARE.CAVALRY_DEFENSE
        fireRateBonus := 0.85 }
  | none => r

/-- Embeds `Unit.takeDamage(amount)`: subtract, clamp at zero. -/
def takeDamage (u : Unit) (amount : ℝ) : Unit :=
  let e := u.entityCount - amount
  { u with entityCount := if e < 0 then 0 else e }

/-- Embeds `Unit.isDead()`: `entityCount <= 0`. -/
def isDead (u : Unit) : Prop := u.entityCount ≤ 0

/-- Embeds `Unit.getHealthPercentage()`. -/
def getHealthPercentage (u : Unit) : ℝ := u.entityCount / u.maxEntityCount

/-- Embeds `Unit.getFireArc()`: 30 degrees for cannon, formation-dependent for
infantry (90 degrees for LINE and COLUMN, 360 degrees for SQUARE, 180
degrees when no formation is set), and `0` for any other type (cavalry). -/
def getFireArc (u : Unit) : ℝ :=
  if u.type' = .CANNON then Real.pi / 6
  else if u.type' ≠ .INFANTRY then 0
  else match u.formation with
    | some .LINE => CONFIG.FORMATION.LINE.FIRE_ARC
    | some .COLUMN => CONFIG.FORMATION.COLUMN.FIRE_ARC
    | some .SQUARE => CONFIG.FORMATION.SQUARE.FIRE_ARC
    | none => Real.pi

end Unit

/-! The exhaustion model (`ExhaustionSystem`). -/

namespace ExhaustionSystem

/-- Embeds `ExhaustionSystem.applyExhaustionPenalties(unit)`: recompute the three
derived multipliers from the exhaustion ratio. -/
def applyExhaustionPenalties (u : Unit) : Unit :=
  let r := u.exhaustion / CONFIG.EXHAUSTION.MAX
  { u with
    speedMultiplier := 1.0 - r * CONFIG.EXHAUSTION.SPEED_PENALTY
    accuracyMultiplier := 1.0 - r * CONFIG.EXHAUSTION.ACCURACY_PENALTY
    reloadMultiplier := 1.0 + r * CONFIG.EXHAUSTION.RELOAD_PENALTY }

/-- Embeds `ExhaustionSystem.update(unit, deltaTime)`: movement gain (reduced in
COLUMN) above the speed threshold, recovery below it, clamped to
`[0, MAX]`; then the penalties are recomputed. -/
def update (u : Unit) (deltaTime : ℝ) : Unit :=
  let u' :=
    if u.speed > 10 then
      let rate := if u.formation = some .COLUMN then
          CONFIG.EXHAUSTION.COLUMN_MOVEMENT_RATE
        else CONFIG.EXHAUSTION.MOVEMENT_RATE
      { u with
        exhaustion := min CONFIG.EXHAUSTION.MAX (u.exhaustion + rate * deltaTime) }
    else
      { u with
        exhaustion := max 0 (u.exhaustion - CONFIG.EXHAUSTION.RECOVERY_RATE * deltaTime) }
  applyExhaustionPenalties u'

/-- Embeds `ExhaustionSystem.addCombatExhaustion(unit)` with the default amount:
add `COMBAT_RATE`, clamp, and recompute the penalties immediately. -/
def addCombatExhaustion (u : Unit) : Unit :=
  applyExhaustionPenalties
    { u with
      exhaustion := min CONFIG.EXHAUSTION.MAX (u.exhaustion + CONFIG.EXHAUSTION.COMBAT_RATE) }

end ExhaustionSystem

/-- The inline combat-exhaustion addition performed on each melee tick by
`CombatSystem.resolveMeleeCombat` (lines 316-323): it clamps the scalar but,
unlike `ExhaustionSystem.addCombatExhaustion`, does not recompute the derived
multipliers. -/
def meleeCombatExhaustion (u : Unit) : Unit :=
  { u with
    exhaustion := min CONFIG.EXHAUSTION.MAX (u.exhaustion + CONFIG.EXHAUSTION.COMBAT_RATE) }

/-- One event acting on a unit's exhaustion state: a per-tick exhaustion
update (moving or idle according to the unit's speed), a volley fired or
received (`ExhaustionSystem.addCombatExhaustion`), or a melee tick (the
inline addition in `CombatSystem.resolveMeleeCombat`). -/
inductive FatigueEvent where
  | tick (dt : ℝ)
  | volley
  | meleeTick

/-- Apply one fatigue event to a unit. -/
def applyFatigue (u : Unit) : FatigueEvent → Unit
  | .tick dt => ExhaustionSystem.update u dt
  | .volley => ExhaustionSystem.addCombatExhaustion u
  | .meleeTick => meleeCombatExhaustion u

/-- Apply a sequence of fatigue events in order. -/
def runFatigue (u : Unit) (evs : List FatigueEvent) : Unit :=
  evs.foldl applyFatigue u

/-- A fatigue event is well-timed when its time step is nonnegative. -/
def FatigueEvent.wellTimed : FatigueEvent → Prop
  | .tick dt => 0 ≤ dt
  | _ => True

lemma exhaustion_step_bounds (u : Unit) (e : FatigueEvent)
    (hw : e.wellTimed) (h0 : 0 ≤ u.exhaustion) (h1 : u.exhaustion ≤ 100) :
    0 ≤ (applyFatigue u e).exhaustion ∧ (applyFatigue u e).exhaustion ≤ 100 := by
  cases e with
  | tick dt =>
      simp only [applyFatigue, ExhaustionSystem.update,
        ExhaustionSystem.applyExhaustionPenalties, CONFIG.EXHAUSTION.MAX,
        CONFIG.EXHAUSTION.MOVEMENT_RATE, CONFIG.EXHAUSTION.COLUMN_MOVEMENT_RATE,
        CONFIG.EXHAUSTION.RECOVERY_RATE, FatigueEvent.wellTimed] at *
      split
      · split
        · constructor
          · exact le_min (by norm_num) (by positivity)
          · exact min_le_left _ _
        · constructor
          · exact le_min (by norm_num) (by positivity)
          · exact min_le_left _ _
      · constructor
        · exact le_max_left _ _
        · exact max_le (by norm_num) (by linarith)
  | volley =>
      simp only [applyFatigue, ExhaustionSystem.addCombatExhaustion,
        ExhaustionSystem.applyExhaustionPenalties, CONFIG.EXHAUSTION.MAX,
        CONFIG.EXHAUSTION.COMBAT_RATE]
      constructor
      · exact le_min (by norm_num) (by linarith)
      · exact min_le_left _ _
  | meleeTick =>
      simp only [applyFatigue, meleeCombatExhaustion, CONFIG.EXHAUSTION.MAX,
        CONFIG.EXHAUSTION.COMBAT_RATE]
      constructor
      · exact le_min (by norm_num) (by linarith)
      · exact min_le_left _ _

lemma runFatigue_bounds (evs : List FatigueEvent) (u : Unit)
    (hw : ∀ e ∈ evs, e.wellTimed)
    (h0 : 0 ≤ u.exhaustion) (h1 : u.exhaustion ≤ 100) :
    0 ≤ (runFatigue u evs).exhaustion ∧ (runFatigue u evs).exhaustion ≤ 100 := by
  induction evs generalizing u with
  | nil => exact ⟨h0, h1⟩
  | cons e rest ih =>
      have hstep := exhaustion_step_bounds u e (hw e (by simp))
        h0 h1
      exact ih (applyFatigue u e) (fun x hx => hw x (by simp [hx]))
        hstep.1 hstep.2

end Game

namespace Game

/-! Angle arithmetic. `Math.atan2(y, x)` is the argument of the complex
number `x + y i`, valued in `(-pi, pi]` (and `0` at the origin, as in JS).
The three-line normalization pattern used throughout `CombatSystem`
(`%` with `2 pi`, conditional `+ 2 pi`, `- pi`) is modelled literally with
JavaScript truncated remainder. -/

/-- JavaScript truncation toward zero. -/
def jsTrunc (x : ℝ) : ℤ := if 0 ≤ x then ⌊x⌋ else ⌈x⌉

/-- JavaScript `%` (truncated remainder, sign of the dividend). -/
def jsRem (a b : ℝ) : ℝ := a - b * jsTrunc (a / b)

/-- Embeds `Math.atan2(y, x)`. -/
def atan2 (y x : ℝ) : ℝ := Complex.arg ⟨x, y⟩

/-- The normalization of an angle to `[-pi, pi)` as written in the source:
`a = (a + PI) % (2 PI); if (a < 0) a += 2 PI; a -= PI`. -/
def normalizeAngle (a : ℝ) : ℝ :=
  let r := jsRem (a + Real.pi) (2 * Real.pi)
  let r2 := if r < 0 then r + 2 * Real.pi else r
  r2 - Real.pi

lemma atan2_zero_one : atan2 0 1 = 0 := by
  have h : (⟨1, 0⟩ : ℂ) = 1 := Complex.ext rfl rfl
  simp [atan2, h, Complex.arg_one]

lemma atan2_zero_neg_one : atan2 0 (-1) = Real.pi := by
  have h : (⟨-1, 0⟩ : ℂ) = -1 := by
    apply Complex.ext <;> simp
  simp [atan2, h, Complex.arg_neg_one]

lemma normalizeAngle_zero : normalizeAngle 0 = 0 := by
  have hpi := Real.pi_pos
  have hdiv : Real.pi / (2 * Real.pi) = 1 / 2 := by
    field_simp
    ring
  have htr : jsTrunc (Real.pi / (2 * Real.pi)) = 0 := by
    rw [hdiv]
    norm_num [jsTrunc]
  have hr : jsRem (0 + Real.pi) (2 * Real.pi) = Real.pi := by
    simp [jsRem, htr]
  simp only [normalizeAngle, hr]
  rw [if_neg (by linarith)]
  ring

lemma normalizeAngle_pi : normalizeAngle Real.pi = -Real.pi := by
  have hpi := Real.pi_pos
  have hdiv : (Real.pi + Real.pi) / (2 * Real.pi) = 1 := by
    field_simp
    ring
  have htr : jsTrunc ((Real.pi + Real.pi) / (2 * Real.pi)) = 1 := by
    rw [hdiv]
    norm_num [jsTrunc]
  have hr : jsRem (Real.pi + Real.pi) (2 * Real.pi) = 0 := by
    simp [jsRem, htr]
    ring
  simp only [normalizeAngle, hr]
  rw [if_neg (by linarith)]
  ring

namespace CombatSystem

/-- Embeds `CombatSystem.calculateDirectionalMultiplier(attacker, defender)`:
square formation (directional defense) nullifies all directional bonuses;
otherwise the attack bearing relative to the defender's facing, normalized
to `[-pi, pi)`, selects rear (3.0), flank (2.0) or front (1.0). -/
def calculateDirectionalMultiplier (attacker defender : Unit) : ℝ :=
  if defender.directionalDefense then CONFIG.DAMAGE.FRONT_MULTIPLIER
  else
    let attackAngle := atan2 (defender.y - attacker.y) (defender.x - attacker.x)
    let relativeAngle := normalizeAngle (attackAngle - defender.angle)
    let absAngle := |relativeAngle|
    if absAngle < CONFIG.DAMAGE.REAR_ANGLE then CONFIG.DAMAGE.REAR_MULTIPLIER
    else if absAngle < CONFIG.DAMAGE.FLANK_ANGLE then CONFIG.DAMAGE.FLANK_MULTIPLIER
    else CONFIG.DAMAGE.FRONT_MULTIPLIER

/-- Embeds `CombatSystem.calculateCavalryChargeBonus(cavalry, target)`: `1.0` for a
non-cavalry attacker, a cavalry below its charge speed, or a non-infantry
target; `1.0 / cavalryDefense` against a square; the cavalry's configured
charge multiplier otherwise. -/
def calculateCavalryChargeBonus (cavalry target : Unit) : ℝ :=
  if cavalry.type' ≠ .CAVALRY then 1.0
  else if cavalry.speed < cavalry.chargeSpeed then 1.0
  else if target.type' ≠ .INFANTRY then 1.0
  else if target.formation = some .SQUARE then 1.0 / target.cavalryDefense
  else cavalry.chargeDamageMultiplier

/-- The damage computation of `CombatSystem.resolveMeleeCombat` (lines
216-299): base melee damage and formation bonus, the two independent random
factors in `[0, 2)` (given here as `r1 * 2` and `r2 * 2` for draws
`r1, r2`), cavalry charge bonus and decisive-combat branches for either
orientation, directional multipliers, the momentum advantage, and the
exhaustion (accuracy) multipliers. Returns the pair
(damage dealt by `unit1`, damage dealt by `unit2`). -/
def meleeDamagePair (unit1 unit2 : Unit) (r1 r2 : ℝ) : ℝ × ℝ :=
  let damage1 := unit1.meleeDamage * jsOr1 unit1.damageBonus
  let damage2 := unit2.meleeDamage * jsOr1 unit2.damageBonus
  let damage1 := damage1 * (r1 * 2.0)
  let damage2 := damage2 * (r2 * 2.0)
  let damage1 :=
    if unit1.type' = .CAVALRY then damage1 * calculateCavalryChargeBonus unit1 unit2
    else damage1
  let p :=
    if unit1.type' = .CAVALRY ∧ unit2.type' = .INFANTRY then
      if unit2.formation = some .SQUARE then
        ((0 : ℝ), damage2 * CONFIG.DAMAGE.SQUARE_VS_CAVALRY_BONUS)
      else (damage1 * CONFIG.DAMAGE.CAVALRY_VS_INFANTRY_BONUS, damage2)
    else (damage1, damage2)
  let damage1 := p.1
  let damage2 := p.2
  let damage2 :=
    if unit2.type' = .CAVALRY then damage2 * calculateCavalryChargeBonus unit2 unit1
    else damage2
  let q :=
    if unit2.type' = .CAVALRY ∧ unit1.type' = .INFANTRY then
      if unit1.formation = some .SQUARE then
        (damage1 * CONFIG.DAMAGE.SQUARE_VS_CAVALRY_BONUS, (0 : ℝ))
      else (damage1, damage2 * CONFIG.DAMAGE.CAVALRY_VS_INFANTRY_BONUS)
    else (damage1, damage2)
  let damage1 := q.1
  let damage2 := q.2
  let damage1 := damage1 * calculateDirectionalMultiplier unit1 unit2
  let damage2 := damage2 * calculateDirectionalMultiplier unit2 unit1
  let m :=
    if unit1.speed > unit2.speed * 1.5 then (damage1 * 1.5, damage2)
    else if unit2.speed > unit1.speed * 1.5 then (damage1, damage2 * 1.5)
    else (damage1, damage2)
  let damage1 := m.1 * jsOr1 unit1.accuracyMultiplier
  let damage2 := m.2 * jsOr1 unit2.accuracyMultiplier
  (damage1, damage2)

/-- Embeds `CombatSystem.isInFireArc(shooter, target)`: the normalized bearing of
the target relative to the shooter's facing lies within half the shooter's
fire arc. -/
def isInFireArc (shooter target : Unit) : Prop :=
  let angleToTarget := atan2 (target.y - shooter.y) (target.x - shooter.x)
  let relativeAngle := normalizeAngle (angleToTarget - shooter.angle)
  |relativeAngle| ≤ shooter.getFireArc / 2

end CombatSystem

end Game

namespace Game

/-! Concrete sample units used by witnesses and counterexamples. -/

/-- A freshly constructed cavalry unit at the origin: its current speed is
`0`, below its charge speed threshold of `120`. -/
def cavSlow : Unit := Unit.new 0 .CAVALRY .RED 0 0

/-- A freshly constructed infantry unit at `(1, 0)`, in no formation. -/
def infPlain : Unit := Unit.new 1 .INFANTRY .BLUE 1 0

/-- The same infantry unit put into SQUARE formation. -/
def infSquare : Unit := (Unit.new 1 .INFANTRY .BLUE 1 0).setFormation (some .SQUARE)

/-- A cavalry unit moving at `150`, at or above its charge speed of `120`. -/
def cavFast : Unit := { Unit.new 0 .CAVALRY .RED 0 0 with speed := 150 }

/-- A freshly constructed cannon unit. -/
def cannonSample : Unit := Unit.new 4 .CANNON .RED 0 0

lemma dirMult_cavSlow_infPlain :
    CombatSystem.calculateDirectionalMultiplier cavSlow infPlain = 3.0 := by
  have hdd : infPlain.directionalDefense = false := rfl
  simp only [CombatSystem.calculateDirectionalMultiplier, hdd, Bool.false_eq_true,
    if_false, show infPlain.y = 0 from rfl, show cavSlow.y = 0 from rfl,
    show infPlain.x = 1 from rfl, show cavSlow.x = 0 from rfl,
    show infPlain.angle = 0 from rfl, CONFIG.DAMAGE.REAR_ANGLE,
    CONFIG.DAMAGE.REAR_MULTIPLIER]
  rw [show (0 : ℝ) - 0 = 0 by ring, show (1 : ℝ) - 0 = 1 by ring,
    atan2_zero_one, show (0 : ℝ) - 0 = 0 by ring, normalizeAngle_zero]
  rw [if_pos (by rw [abs_zero]; positivity)]

/-- C5: the directional damage multiplier is one of `{1.0, 2.0, 3.0}`; it is
`1.0` whenever the defender has directional defense (SQUARE), and otherwise
it is `3.0` when the absolute normalized attack bearing relative to the
defender's facing is below 60 degrees, `2.0` when below 120 degrees, and
`1.0` otherwise. -/
theorem c5_directional_multiplier (attacker defender : Unit) :
    (CombatSystem.calculateDirectionalMultiplier attacker defender = 1.0 ∨
     CombatSystem.calculateDirectionalMultiplier attacker defender = 2.0 ∨
     CombatSystem.calculateDirectionalMultiplier attacker defender = 3.0) ∧
    (defender.directionalDefense = true →
      CombatSystem.calculateDirectionalMultiplier attacker defender = 1.0) ∧
    (defender.directionalDefense = false →
      ((|normalizeAngle (atan2 (defender.y - attacker.y) (defender.x - attacker.x)
            - defender.angle)| < Real.pi / 3 →
         CombatSystem.calculateDirectionalMultiplier attacker defender = 3.0) ∧
       (¬ |normalizeAngle (atan2 (defender.y - attacker.y) (defender.x - attacker.x)
            - defender.angle)| < Real.pi / 3 →
         |normalizeAngle (atan2 (defender.y - attacker.y) (defender.x - attacker.x)
            - defender.angle)| < 2 * Real.pi / 3 →
         CombatSystem.calculateDirectionalMultiplier attacker defender = 2.0) ∧
       (¬ |normalizeAngle (atan2 (defender.y - attacker.y) (defender.x - attacker.x)
            - defender.angle)| < 2 * Real.pi / 3 →
         CombatSystem.calculateDirectionalMultiplier attacker defender = 1.0))) := by
  simp only [CombatSystem.calculateDirectionalMultiplier,
    CONFIG.DAMAGE.FRONT_MULTIPLIER, CONFIG.DAMAGE.REAR_MULTIPLIER,
    CONFIG.DAMAGE.FLANK_MULTIPLIER, CONFIG.DAMAGE.REAR_ANGLE,
    CONFIG.DAMAGE.FLANK_ANGLE]
  cases hdd : defender.directionalDefense with
  | true => simp
  | false =>
      simp only [Bool.false_eq_true, if_false]
      refine ⟨?_, by simp, fun _ => ⟨?_, ?_, ?_⟩⟩
      · split_ifs <;> norm_num
      · intro h1
        rw [if_pos h1]
      · intro h1 h2
        rw [if_neg h1, if_pos h2]
      · intro h2
        have h1 : ¬ |normalizeAngle (atan2 (defender.y - attacker.y)
            (defender.x - attacker.x) - defender.angle)| < Real.pi / 3 :=
          fun hh => h2 (by linarith [Real.pi_pos])
        rw [if_neg h1, if_neg h2]

/-- Witness for C5 at a concrete pair: the defender is in SQUARE formation,
so the multiplier is `1.0`. -/
theorem c5_directional_multiplier_witness :
    CombatSystem.calculateDirectionalMultiplier infPlain infSquare = 1.0 :=
  (c5_directional_multiplier infPlain infSquare).2.1 rfl

/-- C6 (amended): the fire arc is 30 degrees for CANNON, 90 degrees for
infantry in LINE or COLUMN, 360 degrees for infantry in SQUARE, 180 degrees
(not 90) for infantry with no formation, and 0 for cavalry; a target is in
the fire arc exactly when its normalized bearing relative to the shooter's
facing lies within half the arc. -/
theorem c6_fire_arc_amended (u : Unit) :
    (u.type' = .CANNON → u.getFireArc = Real.pi / 6) ∧
    (u.type' = .INFANTRY →
      ((u.formation = some .LINE → u.getFireArc = Real.pi / 2) ∧
       (u.formation = some .COLUMN → u.getFireArc = Real.pi / 2) ∧
       (u.formation = some .SQUARE → u.getFireArc = 2 * Real.pi) ∧
       (u.formation = none → u.getFireArc = Real.pi))) ∧
    (u.type' = .CAVALRY → u.getFireArc = 0) ∧
    (∀ t : Unit, CombatSystem.isInFireArc u t ↔
      |normalizeAngle (atan2 (t.y - u.y) (t.x - u.x) - u.angle)| ≤ u.getFireArc / 2) := by
  refine ⟨?_, ?_, ?_, fun t => Iff.rfl⟩
  · intro h
    simp [Unit.getFireArc, h]
  · intro h
    refine ⟨?_, ?_, ?_, ?_⟩
    all_goals
      intro hf
      simp [Unit.getFireArc, h, hf, CONFIG.FORMATION.LINE.FIRE_ARC,
        CONFIG.FORMATION.COLUMN.FIRE_ARC, CONFIG.FORMATION.SQUARE.FIRE_ARC]
      try ring
  · intro h
    simp [Unit.getFireArc, h]

/-- Witness for C6 at a concrete unit: a cannon's fire arc is 30 degrees. -/
theorem c6_fire_arc_witness : cannonSample.getFireArc = Real.pi / 6 :=
  (c6_fire_arc_amended cannonSample).1 rfl

/-- Counterexample to C6 as stated: an infantry unit with no formation has
fire arc `pi` (180 degrees), not the claimed 90 degrees (`pi / 2`). -/
theorem c6_fire_arc_counterexample :
    infPlain.getFireArc = Real.pi ∧ Real.pi ≠ Real.pi / 2 := by
  constructor
  · simp [infPlain, Unit.getFireArc, Unit.new]
  · intro h
    have := Real.pi_ne_zero
    have : Real.pi = 0 := by linarith [h]
    simp_all

end Game

namespace Game

/-- C7 (amended): under every sequence of per-tick exhaustion updates and
combat-exhaustion additions the exhaustion scalar stays within `[0, 100]`;
after a per-tick update and after a volley addition the three derived
multipliers equal the linear functions of the exhaustion ratio
(speed `1 - r * 0.5`, accuracy `1 - r * 0.3`, reload `1 + r * 0.5`); a
melee-tick addition, however, leaves the multipliers at their previous
values (they are only recomputed by the next update or volley). -/
theorem c7_exhaustion_amended :
    (∀ (u : Unit) (evs : List FatigueEvent), (∀ e ∈ evs, e.wellTimed) →
      0 ≤ u.exhaustion → u.exhaustion ≤ 100 →
      0 ≤ (runFatigue u evs).exhaustion ∧ (runFatigue u evs).exhaustion ≤ 100) ∧
    (∀ (u : Unit) (dt : ℝ),
      (applyFatigue u (.tick dt)).speedMultiplier =
        1 - (applyFatigue u (.tick dt)).exhaustion / 100 * 0.5 ∧
      (applyFatigue u (.tick dt)).accuracyMultiplier =
        1 - (applyFatigue u (.tick dt)).exhaustion / 100 * 0.3 ∧
      (applyFatigue u (.tick dt)).reloadMultiplier =
        1 + (applyFatigue u (.tick dt)).exhaustion / 100 * 0.5) ∧
    (∀ u : Unit,
      (applyFatigue u .volley).speedMultiplier =
        1 - (applyFatigue u .volley).exhaustion / 100 * 0.5 ∧
      (applyFatigue u .volley).accuracyMultiplier =
        1 - (applyFatigue u .volley).exhaustion / 100 * 0.3 ∧
      (applyFatigue u .volley).reloadMultiplier =
        1 + (applyFatigue u .volley).exhaustion / 100 * 0.5) ∧
    (∀ u : Unit,
      (applyFatigue u .meleeTick).speedMultiplier = u.speedMultiplier ∧
      (applyFatigue u .meleeTick).accuracyMultiplier = u.accuracyMultiplier ∧
      (applyFatigue u .meleeTick).reloadMultiplier = u.reloadMultiplier) := by
  refine ⟨fun u evs hw h0 h1 => runFatigue_bounds evs u hw h0 h1, ?_, ?_, ?_⟩
  · intro u dt
    simp only [applyFatigue, ExhaustionSystem.update,
      ExhaustionSystem.applyExhaustionPenalties, CONFIG.EXHAUSTION.MAX,
      CONFIG.EXHAUSTION.SPEED_PENALTY, CONFIG.EXHAUSTION.ACCURACY_PENALTY,
      CONFIG.EXHAUSTION.RELOAD_PENALTY]
    split_ifs <;> norm_num
  · intro u
    simp only [applyFatigue, ExhaustionSystem.addCombatExhaustion,
      ExhaustionSystem.applyExhaustionPenalties, CONFIG.EXHAUSTION.MAX,
      CONFIG.EXHAUSTION.SPEED_PENALTY, CONFIG.EXHAUSTION.ACCURACY_PENALTY,
      CONFIG.EXHAUSTION.RELOAD_PENALTY]
    norm_num
  · intro u
    simp [applyFatigue, meleeCombatExhaustion]

/-- Witness for C7 at a concrete unit and sequence: a fresh infantry unit
after one moving tick and one volley keeps its exhaustion in `[0, 100]`. -/
theorem c7_exhaustion_witness :
    0 ≤ (runFatigue infPlain [.tick 1, .volley]).exhaustion ∧
      (runFatigue infPlain [.tick 1, .volley]).exhaustion ≤ 100 := by
  refine c7_exhaustion_amended.1 infPlain [.tick 1, .volley] ?_ ?_ ?_
  · intro e he
    simp only [List.mem_cons, List.not_mem_nil, or_false] at he
    rcases he with rfl | rfl
    · norm_num [FatigueEvent.wellTimed]
    · trivial
  · norm_num [infPlain, Unit.new]
  · norm_num [infPlain, Unit.new]

/-- Counterexample to C7 as stated: a melee-tick combat-exhaustion addition
raises a fresh unit's exhaustion to `5` but leaves its speed multiplier at
`1.0`, which differs from the claimed linear value `1 - 5 / 100 * 0.5`. -/
theorem c7_exhaustion_counterexample :
    (applyFatigue infPlain .meleeTick).exhaustion = 5 ∧
    (applyFatigue infPlain .meleeTick).speedMultiplier = 1 ∧
    (1 : ℝ) ≠ 1 - 5 / 100 * 0.5 := by
  refine ⟨?_, ?_, by norm_num⟩
  · have h : infPlain.exhaustion = 0 := rfl
    simp only [applyFatigue, meleeCombatExhaustion, h, CONFIG.EXHAUSTION.MAX,
      CONFIG.EXHAUSTION.COMBAT_RATE]
    norm_num
  · have h : (applyFatigue infPlain .meleeTick).speedMultiplier =
        infPlain.speedMultiplier := rfl
    rw [h]
    norm_num [infPlain, Unit.new]

end Game

namespace Game

/-- C1 (amended): in a melee between a cavalry unit whose current speed is
below its charge-speed threshold and a non-SQUARE infantry unit, the
configured charge bonus (3.0) is indeed replaced by `1.0`, but the 5.0
decisive-charge factor is applied regardless of speed, so the cavalry's
damage is base melee damage times formation bonus times the random factor
times `1.0` (spent charge bonus) times `5.0` (decisive charge) times the
directional, momentum and exhaustion factors. Both orientations of the
pair are covered. -/
theorem c1_charge_gating_amended (u1 u2 : Unit) (r1 r2 : ℝ) :
    (u1.type' = .CAVALRY → u1.speed < u1.chargeSpeed → u2.type' = .INFANTRY →
      u2.formation ≠ some .SQUARE →
      (CombatSystem.meleeDamagePair u1 u2 r1 r2).1 =
        u1.meleeDamage * jsOr1 u1.damageBonus * (r1 * 2.0) * 1.0 *
          CONFIG.DAMAGE.CAVALRY_VS_INFANTRY_BONUS *
          CombatSystem.calculateDirectionalMultiplier u1 u2 *
          (if u1.speed > u2.speed * 1.5 then 1.5 else 1) *
          jsOr1 u1.accuracyMultiplier) ∧
    (u2.type' = .CAVALRY → u2.speed < u2.chargeSpeed → u1.type' = .INFANTRY →
      u1.formation ≠ some .SQUARE →
      (CombatSystem.meleeDamagePair u1 u2 r1 r2).2 =
        u2.meleeDamage * jsOr1 u2.damageBonus * (r2 * 2.0) * 1.0 *
          CONFIG.DAMAGE.CAVALRY_VS_INFANTRY_BONUS *
          CombatSystem.calculateDirectionalMultiplier u2 u1 *
          (if u1.speed > u2.speed * 1.5 then 1
           else if u2.speed > u1.speed * 1.5 then 1.5 else 1) *
          jsOr1 u2.accuracyMultiplier) := by
  constructor
  · intro h1 hs h2 hsq
    have hcb : CombatSystem.calculateCavalryChargeBonus u1 u2 = 1.0 := by
      simp [CombatSystem.calculateCavalryChargeBonus, h1, hs]
    simp only [CombatSystem.meleeDamagePair, h1, h2, hsq, hcb]
    simp only [reduceCtorEq, if_false, if_true, and_self, and_false, false_and,
      if_neg (by simp : ¬(UnitType.INFANTRY = UnitType.CAVALRY ∧
        u1.type' = UnitType.INFANTRY))]
    split_ifs <;> ring
  · intro h2 hs h1 hsq
    have hcb : CombatSystem.calculateCavalryChargeBonus u2 u1 = 1.0 := by
      simp [CombatSystem.calculateCavalryChargeBonus, h2, hs]
    simp only [CombatSystem.meleeDamagePair, h1, h2, hsq, hcb]
    simp only [reduceCtorEq, if_false, if_true, and_self, and_false, false_and,
      if_neg (by simp : ¬(UnitType.INFANTRY = UnitType.CAVALRY ∧
        u2.type' = UnitType.INFANTRY))]
    split_ifs <;> ring

/-- Witness for C1 (amended) at a concrete input: a slow cavalry against a
formationless infantry, with both random draws `1/2`. -/
theorem c1_charge_gating_witness :
    (CombatSystem.meleeDamagePair cavSlow infPlain (1/2) (1/2)).1 =
      cavSlow.meleeDamage * jsOr1 cavSlow.damageBonus * (1/2 * 2.0) * 1.0 *
        CONFIG.DAMAGE.CAVALRY_VS_INFANTRY_BONUS *
        CombatSystem.calculateDirectionalMultiplier cavSlow infPlain *
        (if cavSlow.speed > infPlain.speed * 1.5 then 1.5 else 1) *
        jsOr1 cavSlow.accuracyMultiplier :=
  (c1_charge_gating_amended cavSlow infPlain (1/2) (1/2)).1 rfl
    (by norm_num [show cavSlow.speed = 0 from rfl,
      show cavSlow.chargeSpeed = 120 from rfl])
    rfl
    (by simp [show infPlain.formation = none from rfl])

/-- Counterexample to C1 as stated: for a cavalry at speed `0` (below its
charge speed `120`) against a formationless infantry, with both random draws
`1/2`, the cavalry's melee damage is `15/4 = 0.25 * 1 * 1 * 5.0 * 3.0`; the
claim (no 5.0 decisive factor, both multipliers replaced by `1.0`) would
require `3/4 = 0.25 * 1 * 1 * 1.0 * 3.0`. -/
theorem c1_charge_gating_counterexample :
    (CombatSystem.meleeDamagePair cavSlow infPlain (1/2) (1/2)).1 = 15 / 4 ∧
    (15 / 4 : ℝ) ≠ 3 / 4 := by
  constructor
  · have hcb : CombatSystem.calculateCavalryChargeBonus cavSlow infPlain = 1.0 := by
      norm_num [CombatSystem.calculateCavalryChargeBonus,
        show cavSlow.type' = .CAVALRY from rfl,
        show cavSlow.speed = 0 from rfl, show cavSlow.chargeSpeed = 120 from rfl]
    have hd1 := dirMult_cavSlow_infPlain
    simp only [CombatSystem.meleeDamagePair, hcb, hd1,
      show cavSlow.type' = .CAVALRY from rfl,
      show infPlain.type' = .INFANTRY from rfl,
      show infPlain.formation = none from rfl,
      show cavSlow.meleeDamage = 0.25 from rfl,
      show cavSlow.damageBonus = 1.0 from rfl,
      show cavSlow.accuracyMultiplier = 1.0 from rfl,
      show cavSlow.speed = 0 from rfl,
      show infPlain.speed = 0 from rfl,
      CONFIG.DAMAGE.CAVALRY_VS_INFANTRY_BONUS, jsOr1]
    simp only [reduceCtorEq, false_and, and_false, if_false, if_neg
      (show ¬(UnitType.INFANTRY = UnitType.CAVALRY ∧
        UnitType.CAVALRY = UnitType.INFANTRY) by simp)]
    norm_num
  · norm_num

/-- C4: in a melee between a cavalry unit at or above its charge speed and
an infantry unit in SQUARE formation, the cavalry deals exactly `0` damage
that tick and the infantry's counter-damage carries the `4.0` bayonet
retaliation factor, applied before the shared directional, momentum and
exhaustion scaling. Both orientations of the pair are covered. -/
theorem c4_cavalry_vs_square (u1 u2 : Unit) (r1 r2 : ℝ) :
    (u1.type' = .CAVALRY → u1.chargeSpeed ≤ u1.speed → u2.type' = .INFANTRY →
      u2.formation = some .SQUARE →
      (CombatSystem.meleeDamagePair u1 u2 r1 r2).1 = 0 ∧
      (CombatSystem.meleeDamagePair u1 u2 r1 r2).2 =
        u2.meleeDamage * jsOr1 u2.damageBonus * (r2 * 2.0) *
          CONFIG.DAMAGE.SQUARE_VS_CAVALRY_BONUS *
          CombatSystem.calculateDirectionalMultiplier u2 u1 *
          (if u1.speed > u2.speed * 1.5 then 1
           else if u2.speed > u1.speed * 1.5 then 1.5 else 1) *
          jsOr1 u2.accuracyMultiplier) ∧
    (u2.type' = .CAVALRY → u2.chargeSpeed ≤ u2.speed → u1.type' = .INFANTRY →
      u1.formation = some .SQUARE →
      (CombatSystem.meleeDamagePair u1 u2 r1 r2).2 = 0 ∧
      (CombatSystem.meleeDamagePair u1 u2 r1 r2).1 =
        u1.meleeDamage * jsOr1 u1.damageBonus * (r1 * 2.0) *
          CONFIG.DAMAGE.SQUARE_VS_CAVALRY_BONUS *
          CombatSystem.calculateDirectionalMultiplier u1 u2 *
          (if u1.speed > u2.speed * 1.5 then 1.5 else 1) *
          jsOr1 u1.accuracyMultiplier) := by
  constructor
  · intro h1 hs h2 hsq
    simp only [CombatSystem.meleeDamagePair, h1, h2, hsq]
    simp only [reduceCtorEq, if_false, if_true, and_self, and_false, false_and,
      if_neg (by simp : ¬(UnitType.INFANTRY = UnitType.CAVALRY ∧
        u1.type' = UnitType.INFANTRY))]
    constructor
    · split_ifs <;> ring
    · split_ifs <;> ring
  · intro h2 hs h1 hsq
    simp only [CombatSystem.meleeDamagePair, h1, h2, hsq]
    simp only [reduceCtorEq, if_false, if_true, and_self, and_false, false_and,
      if_neg (by simp : ¬(UnitType.INFANTRY = UnitType.CAVALRY ∧
        u2.type' = UnitType.INFANTRY))]
    constructor
    · split_ifs <;> ring
    · split_ifs <;> ring

/-- Witness for C4 at a concrete input: a cavalry at speed `150` (charge
speed `120`) against an infantry in SQUARE, with both random draws `1/2`. -/
theorem c4_cavalry_vs_square_witness :
    (CombatSystem.meleeDamagePair cavFast infSquare (1/2) (1/2)).1 = 0 ∧
    (CombatSystem.meleeDamagePair cavFast infSquare (1/2) (1/2)).2 =
      infSquare.meleeDamage * jsOr1 infSquare.damageBonus * (1/2 * 2.0) *
        CONFIG.DAMAGE.SQUARE_VS_CAVALRY_BONUS *
        CombatSystem.calculateDirectionalMultiplier infSquare cavFast *
        (if cavFast.speed > infSquare.speed * 1.5 then 1
         else if infSquare.speed > cavFast.speed * 1.5 then 1.5 else 1) *
        jsOr1 infSquare.accuracyMultiplier :=
  (c4_cavalry_vs_square cavFast infSquare (1/2) (1/2)).1 rfl
    (by norm_num [show cavFast.speed = 150 from rfl,
      show cavFast.chargeSpeed = 120 from rfl])
    rfl rfl

end Game

namespace Game

def CONFIG.LOS.TERRAIN_BLOCKS : Bool := true
def CONFIG.LOS.FRIENDLY_BLOCKS : Bool := true

namespace LOSSystem

/-- Embeds `LOSSystem.raycast(startX, startY, endX, endY, sampleRate)`: the sample
points `start + k * sampleRate * dir` for `k * sampleRate < distance`
(the JS loop `for (d = 0; d < distance; d += sampleRate)`). -/
def raycast (startX startY endX endY sampleRate : ℝ) : List (ℝ × ℝ) :=
  let dx := endX - startX
  let dy := endY - startY
  let distance := Real.sqrt (dx * dx + dy * dy)
  if distance = 0 then []
  else
    let dirX := dx / distance
    let dirY := dy / distance
    (List.range ⌈distance / sampleRate⌉₊).map fun k =>
      (startX + dirX * (k * sampleRate), startY + dirY * (k * sampleRate))

/-- Embeds `LOSSystem.circleLineIntersection(cx, cy, radius, x1, y1, x2, y2)`:
distance from the circle center to the closest point of the segment is
within the radius (`false` on a degenerate segment). -/
def circleLineIntersection (cx cy radius x1 y1 x2 y2 : ℝ) : Prop :=
  let dx := cx - x1
  let dy := cy - y1
  let lx := x2 - x1
  let ly := y2 - y1
  let lineLength := Real.sqrt (lx * lx + ly * ly)
  if lineLength = 0 then False
  else
    let nx := lx / lineLength
    let ny := ly / lineLength
    let t := max 0 (min lineLength (dx * nx + dy * ny))
    let closestX := x1 + nx * t
    let closestY := y1 + ny * t
    let distX := cx - closestX
    let distY := cy - closestY
    Real.sqrt (distX * distX + distY * distY) ≤ radius

/-- The pre-filter predicate of `LOSSystem.checkFriendlyBlock`: same team as
the shooter, neither the shooter nor the target, alive, and inside the
bounding box of the ray expanded by the infantry collision radius. -/
def friendlyCandidate (x1 y1 x2 y2 : ℝ) (fromUnit toUnit u : Unit) : Prop :=
  u.team = fromUnit.team ∧ u.id ≠ fromUnit.id ∧ u.id ≠ toUnit.id ∧
  ¬u.isDead ∧
  min x1 x2 - CONFIG.INFANTRY.COLLISION_RADIUS ≤ u.x ∧
  u.x ≤ max x1 x2 + CONFIG.INFANTRY.COLLISION_RADIUS ∧
  min y1 y2 - CONFIG.INFANTRY.COLLISION_RADIUS ≤ u.y ∧
  u.y ≤ max y1 y2 + CONFIG.INFANTRY.COLLISION_RADIUS

open Classical in
/-- Embeds `LOSSystem.checkFriendlyBlock(x1, y1, x2, y2, fromUnit, toUnit, allUnits)`:
filter the candidates, then return the first one whose collision circle
intersects the ray (`none` when no unit blocks). -/
def checkFriendlyBlock (x1 y1 x2 y2 : ℝ) (fromUnit toUnit : Unit)
    (allUnits : List Unit) : Option Unit :=
  let friendlyUnits := allUnits.filter fun u =>
    decide (friendlyCandidate x1 y1 x2 y2 fromUnit toUnit u)
  friendlyUnits.find? fun u =>
    decide (circleLineIntersection u.x u.y u.collisionRadius x1 y1 x2 y2)

/-- Cause of a line-of-sight block. -/
inductive BlockCause where
  | terrain | friendly
deriving DecidableEq, Repr

/-- Result record of `LOSSystem.checkLOS`. -/
structure LOSResult where
  hasLOS : Bool
  blockedBy : Option BlockCause
  blockingUnit : Option Unit

/-- Embeds `LOSSystem.checkLOS(fromUnit, toUnit, allUnits)` with the default
`terrain = null` used at every call site: the terrain pass is skipped
(`terrain && CONFIG.LOS.TERRAIN_BLOCKS` is falsy), so only friendly
blocking applies. -/
def checkLOS (fromUnit toUnit : Unit) (allUnits : List Unit) : LOSResult :=
  let _rayPoints :=
    raycast fromUnit.x fromUnit.y toUnit.x toUnit.y CONFIG.LOS.SAMPLE_RATE
  if CONFIG.LOS.FRIENDLY_BLOCKS then
    match checkFriendlyBlock fromUnit.x fromUnit.y toUnit.x toUnit.y
        fromUnit toUnit allUnits with
    | some u =>
        { hasLOS := false, blockedBy := some .friendly, blockingUnit := some u }
    | none => { hasLOS := true, blockedBy := none, blockingUnit := none }
  else { hasLOS := true, blockedBy := none, blockingUnit := none }

lemma checkFriendlyBlock_eq_some (x1 y1 x2 y2 : ℝ) (fU tU u : Unit)
    (l : List Unit)
    (h : checkFriendlyBlock x1 y1 x2 y2 fU tU l = some u) :
    u ∈ l ∧ friendlyCandidate x1 y1 x2 y2 fU tU u ∧
      circleLineIntersection u.x u.y u.collisionRadius x1 y1 x2 y2 := by
  have hmem := List.mem_of_find?_eq_some h
  have hp := List.find?_some h
  rw [List.mem_filter] at hmem
  refine ⟨hmem.1, ?_, ?_⟩
  · have := hmem.2
    simpa using this
  · simpa using hp

open Classical in
lemma checkFriendlyBlock_isSome_iff (x1 y1 x2 y2 : ℝ) (fU tU : Unit)
    (l : List Unit) :
    (∃ u, checkFriendlyBlock x1 y1 x2 y2 fU tU l = some u) ↔
    ∃ u ∈ l, friendlyCandidate x1 y1 x2 y2 fU tU u ∧
      circleLineIntersection u.x u.y u.collisionRadius x1 y1 x2 y2 := by
  constructor
  · rintro ⟨u, hu⟩
    obtain ⟨h1, h2, h3⟩ := checkFriendlyBlock_eq_some x1 y1 x2 y2 fU tU u l hu
    exact ⟨u, h1, h2, h3⟩
  · rintro ⟨u, hul, hfr, hint⟩
    have hmem : u ∈ l.filter fun v =>
        decide (friendlyCandidate x1 y1 x2 y2 fU tU v) :=
      List.mem_filter.2 ⟨hul, by simpa using hfr⟩
    have hsome : ((l.filter fun v =>
        decide (friendlyCandidate x1 y1 x2 y2 fU tU v)).find? fun v =>
        decide (circleLineIntersection v.x v.y v.collisionRadius x1 y1 x2 y2)).isSome :=
      List.find?_isSome.2 ⟨u, hmem, by simpa using hint⟩
    obtain ⟨v, hv⟩ := Option.isSome_iff_exists.1 hsome
    exact ⟨v, hv⟩

end LOSSystem

end Game

namespace Game

/-- C3 (amended): with no terrain, `checkLOS` reports no line of sight
exactly when some living unit of the shooter's team, other than the shooter
and the target, lies inside the ray's bounding box expanded by the infantry
collision radius (the source's pre-filter, which uses that fixed radius for
every unit type) and has its collision circle intersecting the
shooter-to-target segment; in the blocked case `blockedBy` is `friendly`
and the blocking unit is returned. Units whose circle intersects the
segment but whose center falls outside the expanded bounding box do not
block. -/
theorem c3_los_amended (fromU toU : Unit) (allUnits : List Unit) :
    ((LOSSystem.checkLOS fromU toU allUnits).hasLOS = false ↔
      ∃ u ∈ allUnits,
        LOSSystem.friendlyCandidate fromU.x fromU.y toU.x toU.y fromU toU u ∧
        LOSSystem.circleLineIntersection u.x u.y u.collisionRadius
          fromU.x fromU.y toU.x toU.y) ∧
    (∀ u : Unit,
      (LOSSystem.checkLOS fromU toU allUnits).blockingUnit = some u →
      (LOSSystem.checkLOS fromU toU allUnits).blockedBy = some .friendly ∧
      u ∈ allUnits ∧
      LOSSystem.friendlyCandidate fromU.x fromU.y toU.x toU.y fromU toU u ∧
      LOSSystem.circleLineIntersection u.x u.y u.collisionRadius
        fromU.x fromU.y toU.x toU.y) ∧
    ((LOSSystem.checkLOS fromU toU allUnits).hasLOS = false →
      ∃ u : Unit,
        (LOSSystem.checkLOS fromU toU allUnits).blockingUnit = some u) := by
  cases hfind : LOSSystem.checkFriendlyBlock fromU.x fromU.y toU.x toU.y
      fromU toU allUnits with
  | some u =>
      have hres : LOSSystem.checkLOS fromU toU allUnits =
          { hasLOS := false, blockedBy := some .friendly,
            blockingUnit := some u } := by
        simp only [LOSSystem.checkLOS, CONFIG.LOS.FRIENDLY_BLOCKS, if_true, hfind]
      obtain ⟨h1, h2, h3⟩ := LOSSystem.checkFriendlyBlock_eq_some _ _ _ _
        _ _ _ _ hfind
      rw [hres]
      refine ⟨?_, ?_, ?_⟩
      · simp only [true_iff]
        exact ⟨u, h1, h2, h3⟩
      · intro v hv
        simp only [Option.some_inj] at hv
        subst hv
        exact ⟨rfl, h1, h2, h3⟩
      · intro _
        exact ⟨u, rfl⟩
  | none =>
      have hres : LOSSystem.checkLOS fromU toU allUnits =
          { hasLOS := true, blockedBy := none, blockingUnit := none } := by
        simp only [LOSSystem.checkLOS, CONFIG.LOS.FRIENDLY_BLOCKS, if_true, hfind]
      rw [hres]
      refine ⟨?_, ?_, ?_⟩
      · simp only [Bool.true_eq_false, false_iff]
        rintro ⟨u, hul, hfr, hint⟩
        have hex : ∃ v, LOSSystem.checkFriendlyBlock fromU.x fromU.y toU.x toU.y
            fromU toU allUnits = some v :=
          (LOSSystem.checkFriendlyBlock_isSome_iff _ _ _ _ _ _ _).2
            ⟨u, hul, hfr, hint⟩
        obtain ⟨v, hv⟩ := hex
        rw [hfind] at hv
        exact Option.noConfusion hv
      · intro v hv
        exact Option.noConfusion hv
      · intro h
        exact Bool.noConfusion h

end Game

namespace Game

/-- Shooter for the line-of-sight examples, at the origin. -/
def losShooter : Unit := Unit.new 0 .INFANTRY .RED 0 0

/-- Target for the line-of-sight examples, at `(100, 0)`. -/
def losTarget : Unit := Unit.new 1 .INFANTRY .BLUE 100 0

/-- A friendly cavalry unit (collision radius 15) at `(50, 13.5)`: its
center is outside the ray's bounding box expanded by the infantry radius 12,
yet its circle intersects the segment. -/
def losBlocker : Unit := Unit.new 2 .CAVALRY .RED 50 13.5

/-- A friendly cavalry unit sitting directly on the segment. -/
def losBlockerOn : Unit := Unit.new 3 .CAVALRY .RED 50 0

lemma losBlockerOn_candidate :
    LOSSystem.friendlyCandidate losShooter.x losShooter.y losTarget.x
      losTarget.y losShooter losTarget losBlockerOn := by
  simp only [LOSSystem.friendlyCandidate, Unit.isDead,
    show losBlockerOn.team = Team.RED from rfl,
    show losShooter.team = Team.RED from rfl,
    show losBlockerOn.id = 3 from rfl, show losShooter.id = 0 from rfl,
    show losTarget.id = 1 from rfl,
    show losBlockerOn.entityCount = 50 from rfl,
    show losShooter.x = 0 from rfl, show losShooter.y = 0 from rfl,
    show losTarget.x = 100 from rfl, show losTarget.y = 0 from rfl,
    show losBlockerOn.x = 50 from rfl, show losBlockerOn.y = 0 from rfl,
    CONFIG.INFANTRY.COLLISION_RADIUS]
  norm_num [min_def, max_def]

lemma losBlockerOn_intersects :
    LOSSystem.circleLineIntersection losBlockerOn.x losBlockerOn.y
      losBlockerOn.collisionRadius losShooter.x losShooter.y losTarget.x
      losTarget.y := by
  simp only [LOSSystem.circleLineIntersection,
    show losBlockerOn.x = 50 from rfl, show losBlockerOn.y = 0 from rfl,
    show losBlockerOn.collisionRadius = 15 from rfl,
    show losShooter.x = 0 from rfl, show losShooter.y = 0 from rfl,
    show losTarget.x = 100 from rfl, show losTarget.y = 0 from rfl]
  rw [show ((100:ℝ) - 0) * (100 - 0) + (0 - 0) * (0 - 0) = 100 ^ 2 by norm_num,
    Real.sqrt_sq (by norm_num : (0:ℝ) ≤ 100)]
  rw [if_neg (by norm_num)]
  rw [show ((50:ℝ) - 0) * ((100 - 0) / 100) + (0 - 0) * ((0 - 0) / 100) = 50
      by norm_num,
    show min (100:ℝ) 50 = 50 by norm_num [min_def],
    show max (0:ℝ) 50 = 50 by norm_num [max_def]]
  rw [show (50 - ((0:ℝ) + (100 - 0) / 100 * 50)) *
        (50 - (0 + (100 - 0) / 100 * 50)) +
      (0 - (0 + (0 - 0) / 100 * 50)) * (0 - (0 + (0 - 0) / 100 * 50)) = 0
      by norm_num]
  rw [Real.sqrt_zero]
  norm_num

/-- Witness for C3 at a concrete blocked configuration: a friendly cavalry
unit sitting on the shooter-to-target segment blocks line of sight. -/
theorem c3_los_witness :
    (LOSSystem.checkLOS losShooter losTarget
      [losShooter, losTarget, losBlockerOn]).hasLOS = false :=
  (c3_los_amended losShooter losTarget
    [losShooter, losTarget, losBlockerOn]).1.mpr
    ⟨losBlockerOn, by simp, losBlockerOn_candidate, losBlockerOn_intersects⟩

lemma losBlocker_intersects :
    LOSSystem.circleLineIntersection losBlocker.x losBlocker.y
      losBlocker.collisionRadius losShooter.x losShooter.y losTarget.x
      losTarget.y := by
  simp only [LOSSystem.circleLineIntersection,
    show losBlocker.x = 50 from rfl, show losBlocker.y = 13.5 from rfl,
    show losBlocker.collisionRadius = 15 from rfl,
    show losShooter.x = 0 from rfl, show losShooter.y = 0 from rfl,
    show losTarget.x = 100 from rfl, show losTarget.y = 0 from rfl]
  rw [show ((100:ℝ) - 0) * (100 - 0) + (0 - 0) * (0 - 0) = 100 ^ 2 by norm_num,
    Real.sqrt_sq (by norm_num : (0:ℝ) ≤ 100)]
  rw [if_neg (by norm_num)]
  rw [show ((50:ℝ) - 0) * ((100 - 0) / 100) + (13.5 - 0) * ((0 - 0) / 100) = 50
      by norm_num,
    show min (100:ℝ) 50 = 50 by norm_num [min_def],
    show max (0:ℝ) 50 = 50 by norm_num [max_def]]
  rw [show (50 - ((0:ℝ) + (100 - 0) / 100 * 50)) *
        (50 - (0 + (100 - 0) / 100 * 50)) +
      (13.5 - (0 + (0 - 0) / 100 * 50)) * (13.5 - (0 + (0 - 0) / 100 * 50)) =
      (13.5 : ℝ) ^ 2 by norm_num]
  rw [Real.sqrt_sq (by norm_num : (0:ℝ) ≤ 13.5)]
  norm_num

/-- Counterexample to C3 as stated: the friendly cavalry at `(50, 13.5)` is
alive, is neither shooter nor target, and its collision circle (radius 15)
intersects the shooter-to-target segment, yet `checkLOS` reports clear line
of sight, because the bounding-box pre-filter expands the box by the
infantry collision radius 12 only. -/
theorem c3_los_counterexample :
    (LOSSystem.checkLOS losShooter losTarget
      [losShooter, losTarget, losBlocker]).hasLOS = true ∧
    losBlocker.team = losShooter.team ∧
    losBlocker.id ≠ losShooter.id ∧ losBlocker.id ≠ losTarget.id ∧
    ¬ losBlocker.isDead ∧
    LOSSystem.circleLineIntersection losBlocker.x losBlocker.y
      losBlocker.collisionRadius losShooter.x losShooter.y losTarget.x
      losTarget.y := by
  have hnone : LOSSystem.checkFriendlyBlock losShooter.x losShooter.y
      losTarget.x losTarget.y losShooter losTarget
      [losShooter, losTarget, losBlocker] = none := by
    classical
    simp only [LOSSystem.checkFriendlyBlock]
    refine List.find?_eq_none.2 ?_
    intro x hx
    rw [List.mem_filter] at hx
    obtain ⟨hmem, hcand⟩ := hx
    replace hcand := of_decide_eq_true hcand
    exfalso
    simp only [List.mem_cons, List.not_mem_nil, or_false] at hmem
    rcases hmem with rfl | rfl | rfl
    · exact absurd hcand (by
        norm_num [LOSSystem.friendlyCandidate,
          show losShooter.id = 0 from rfl])
    · exact absurd hcand (by
        norm_num [LOSSystem.friendlyCandidate,
          show losTarget.team = Team.BLUE from rfl,
          show losShooter.team = Team.RED from rfl])
    · exact absurd hcand (by
        norm_num [LOSSystem.friendlyCandidate, min_def, max_def,
          show losBlocker.y = 13.5 from rfl,
          show losShooter.y = 0 from rfl, show losTarget.y = 0 from rfl,
          CONFIG.INFANTRY.COLLISION_RADIUS])
  refine ⟨?_, rfl, by norm_num [show losBlocker.id = 2 from rfl,
      show losShooter.id = 0 from rfl],
    by norm_num [show losBlocker.id = 2 from rfl,
      show losTarget.id = 1 from rfl],
    by norm_num [Unit.isDead, show losBlocker.entityCount = 50 from rfl],
    losBlocker_intersects⟩
  simp only [LOSSystem.checkLOS, CONFIG.LOS.FRIENDLY_BLOCKS, if_true, hnone]

end Game

namespace Game

/-- Projectile state record, from the `Projectile` constructor in
`js/Projectile.js`. -/
structure Projectile where
  x : ℝ
  y : ℝ
  startX : ℝ
  startY : ℝ
  vx : ℝ
  vy : ℝ
  speed : ℝ
  damage : ℝ
  team : Team
  range : ℝ
  radius : ℝ
  isDead : Bool

namespace Projectile

/-- Embeds `new Projectile(x, y, angle, speed, damage, team, range)`: velocity from
angle and speed, and the spawn offset of 20 along the barrel applied to the
position (but not to the recorded start point). -/
def new (x y angle speed damage : ℝ) (team : Team) (range : ℝ) : Projectile :=
  { x := x + Real.cos angle * 20
    y := y + Real.sin angle * 20
    startX := x, startY := y
    vx := Real.cos angle * speed
    vy := Real.sin angle * speed
    speed := speed, damage := damage, team := team, range := range
    radius := 4, isDead := false }

open Classical in
/-- Embeds `Projectile.update(deltaTime)`: advance, then die beyond max range or
outside the canvas. -/
def update (p : Projectile) (deltaTime : ℝ) : Projectile :=
  let p1 := { p with x := p.x + p.vx * deltaTime, y := p.y + p.vy * deltaTime }
  let dist := Real.sqrt ((p1.x - p1.startX) ^ 2 + (p1.y - p1.startY) ^ 2)
  let p2 := if dist > p1.range then { p1 with isDead := true } else p1
  if p2.x < 0 ∨ p2.x > CONFIG.CANVAS_WIDTH ∨ p2.y < 0 ∨ p2.y > CONFIG.CANVAS_HEIGHT
  then { p2 with isDead := true } else p2

end Projectile

namespace CombatSystem

open Classical in
/-- Embeds `CombatSystem.calculateAccuracy(distance, maxRange)` with its random
draw `r` made explicit: a distance-bucketed uniform draw. -/
def calculateAccuracy (distance maxRange r : ℝ) : ℝ :=
  let ratio := distance / maxRange
  if ratio < 0.33 then
    CONFIG.ACCURACY.SHORT_MIN +
      r * (CONFIG.ACCURACY.SHORT_MAX - CONFIG.ACCURACY.SHORT_MIN)
  else if ratio < 0.67 then
    CONFIG.ACCURACY.MEDIUM_MIN +
      r * (CONFIG.ACCURACY.MEDIUM_MAX - CONFIG.ACCURACY.MEDIUM_MIN)
  else
    CONFIG.ACCURACY.LONG_MIN +
      r * (CONFIG.ACCURACY.LONG_MAX - CONFIG.ACCURACY.LONG_MIN)

open Classical in
/-- Embeds `CombatSystem.calculateCannonAccuracy(distance, maxRange)` with its
random draw `r` made explicit (the source never reads `maxRange` here; the
buckets are absolute distances). -/
def calculateCannonAccuracy (distance _maxRange r : ℝ) : ℝ :=
  if distance ≤ CONFIG.CANNON_ACCURACY.CLOSE_RANGE then
    CONFIG.CANNON_ACCURACY.CLOSE_MIN +
      r * (CONFIG.CANNON_ACCURACY.CLOSE_MAX - CONFIG.CANNON_ACCURACY.CLOSE_MIN)
  else if distance ≤ CONFIG.CANNON_ACCURACY.MEDIUM_RANGE then
    CONFIG.CANNON_ACCURACY.MEDIUM_MIN +
      r * (CONFIG.CANNON_ACCURACY.MEDIUM_MAX - CONFIG.CANNON_ACCURACY.MEDIUM_MIN)
  else
    CONFIG.CANNON_ACCURACY.LONG_MIN +
      r * (CONFIG.CANNON_ACCURACY.LONG_MAX - CONFIG.CANNON_ACCURACY.LONG_MIN)

open Classical in
/-- The final-accuracy computation of `CombatSystem.resolveMusketFire`
(lines 18-42): distance-bucketed base accuracy (cannon table for cannon),
formation accuracy bonus and exhaustion accuracy multiplier, then the
point-blank override (0.95 below 20% of max range) and the long-range crush
(times 0.1 beyond 80%). `rBand` is the accuracy draw. -/
def musketFinalAccuracy (shooter target : Unit) (rBand : ℝ) : ℝ :=
  let dx := target.x - shooter.x
  let dy := target.y - shooter.y
  let distance := Real.sqrt (dx * dx + dy * dy)
  let baseAccuracy :=
    if shooter.type' = .CANNON then
      calculateCannonAccuracy distance shooter.fireRange rBand
    else calculateAccuracy distance shooter.fireRange rBand
  let formationBonus := jsOr1 shooter.accuracyBonus
  let exhaustionPenalty := jsOr1 shooter.accuracyMultiplier
  let finalAccuracy := baseAccuracy * formationBonus * exhaustionPenalty
  if distance / shooter.fireRange < 0.2 then 0.95
  else if distance / shooter.fireRange > 0.8 then finalAccuracy * 0.1
  else finalAccuracy

/-- Result record of `CombatSystem.resolveMusketFire`; `projectile` is the
optional spawned cannonball. -/
structure MusketResult where
  hit : Bool
  damage : ℝ
  multiplier : ℝ
  projectile : Option Projectile

open Classical in
/-- Embeds `CombatSystem.resolveMusketFire(shooter, target, allUnits,
visualEffects, audioManager)`: the draws `rBand` (accuracy band), `rHit`
(hit roll) and `rJit` (cannon jitter) are explicit, and the presence of the
visual/audio collaborators is a pair of flags. Returns the combat result
together with the updated shooter and target (damage and combat exhaustion
are applied only on an instant hit; the cannon-with-audio branch spawns a
projectile and leaves both units untouched). -/
def resolveMusketFire (shooter target : Unit) (rBand rHit rJit : ℝ)
    (_visual audio : Bool) : MusketResult × Unit × Unit :=
  if shooter.type' ≠ .INFANTRY ∧ shooter.type' ≠ .CANNON then
    ({ hit := false, damage := 0, multiplier := 1.0, projectile := none },
     shooter, target)
  else
    let dx := target.x - shooter.x
    let dy := target.y - shooter.y
    let finalAccuracy := musketFinalAccuracy shooter target rBand
    let hit := rHit < finalAccuracy
    if audio = true ∧ shooter.type' = .CANNON then
      let angleToTarget := atan2 dy dx
      let jitterMax := (0.15 : ℝ)
      let jitter := (rJit - 0.5) * 2 * jitterMax * (1 - finalAccuracy)
      let fireAngle := angleToTarget + jitter
      let cannonball := Projectile.new shooter.x shooter.y fireAngle 300
        shooter.baseDamage shooter.team (shooter.fireRange * 1.5)
      ({ hit := false, damage := 0, multiplier := 1.0,
         projectile := some cannonball }, shooter, target)
    else if ¬hit then
      ({ hit := false, damage := 0, multiplier := 1.0, projectile := none },
       shooter, target)
    else
      let directionalMultiplier := calculateDirectionalMultiplier shooter target
      let damage := shooter.baseDamage * jsOr1 shooter.damageBonus *
        directionalMultiplier
      let target' := ExhaustionSystem.addCombatExhaustion (target.takeDamage damage)
      let shooter' := ExhaustionSystem.addCombatExhaustion shooter
      ({ hit := true, damage := damage, multiplier := directionalMultiplier,
         projectile := none }, shooter', target')

end CombatSystem

/-- C2: when the audio collaborator is present (as it is at the engine's
only call site), a CANNON firing never applies instant damage: the result
is `hit = false`, `damage = 0`, and a spawned ballistic projectile aimed at
the target with angular jitter `(rJit - 0.5) * 2 * 0.15` scaled by one
minus the computed final accuracy; shooter and target are returned
unchanged. -/
theorem c2_cannon_fire_spawns_projectile (shooter target : Unit)
    (rBand rHit rJit : ℝ) (visual audio : Bool)
    (htype : shooter.type' = .CANNON) (haudio : audio = true) :
    CombatSystem.resolveMusketFire shooter target rBand rHit rJit visual audio =
      ({ hit := false, damage := 0, multiplier := 1.0,
         projectile := some (Projectile.new shooter.x shooter.y
           (atan2 (target.y - shooter.y) (target.x - shooter.x) +
             (rJit - 0.5) * 2 * 0.15 *
               (1 - CombatSystem.musketFinalAccuracy shooter target rBand))
           300 shooter.baseDamage shooter.team (shooter.fireRange * 1.5)) },
       shooter, target) := by
  simp [CombatSystem.resolveMusketFire, htype, haudio]

/-- Witness for C2 at a concrete input: the sample cannon firing at the
sample infantry with audio present. -/
theorem c2_cannon_fire_witness :
    CombatSystem.resolveMusketFire cannonSample infPlain (1/2) (1/2) (1/2)
        true true =
      ({ hit := false, damage := 0, multiplier := 1.0,
         projectile := some (Projectile.new cannonSample.x cannonSample.y
           (atan2 (infPlain.y - cannonSample.y) (infPlain.x - cannonSample.x) +
             ((1:ℝ)/2 - 0.5) * 2 * 0.15 *
               (1 - CombatSystem.musketFinalAccuracy cannonSample infPlain (1/2)))
           300 cannonSample.baseDamage cannonSample.team
           (cannonSample.fireRange * 1.5)) },
       cannonSample, infPlain) :=
  c2_cannon_fire_spawns_projectile cannonSample infPlain (1/2) (1/2) (1/2)
    true true rfl rfl

end Game

namespace Game

/-- The engine state owned by `GameEngine` (`js/DeploymentManager.js`,
`class GameEngine`): the unit registry, the selection (modelled by unit
ids, see the file header), the projectile list, elapsed game time,
game-over flag, winner and the id counter. -/
structure EngineState where
  units : List Unit
  selectedUnits : List ℕ
  projectiles : List Projectile
  gameTime : ℝ
  gameOver : Bool
  winner : Option Team
  nextUnitId : ℕ

/-- The freshly constructed engine: empty registry. -/
def emptyEngine : EngineState :=
  { units := [], selectedUnits := [], projectiles := []
    gameTime := 0, gameOver := false, winner := none, nextUnitId := 0 }

/-- The wire format of one unit in a `GAME_STATE_SYNC` snapshot
(`GameStateSync.serializeUnit`). -/
structure RemoteUnit where
  id : ℕ
  type' : UnitType
  team : Team
  x : ℝ
  y : ℝ
  vx : ℝ
  vy : ℝ
  angle : ℝ
  targetX : Option ℝ
  targetY : Option ℝ
  entityCount : ℝ
  formation : Option Formation
  isSelected : Bool
  isReloading : Bool
  reloadProgress : ℝ
  exhaustion : ℝ
  isMeleeLocked : Bool
  currentTargetId : Option ℕ

namespace GameStateSync

/-- Embeds `GameStateSync.serializeUnit(unit)`. -/
def serializeUnit (u : Unit) : RemoteUnit :=
  { id := u.id, type' := u.type', team := u.team
    x := u.x, y := u.y, vx := u.vx, vy := u.vy, angle := u.angle
    targetX := u.targetX, targetY := u.targetY
    entityCount := u.entityCount, formation := u.formation
    isSelected := u.isSelected, isReloading := u.isReloading
    reloadProgress := u.reloadProgress, exhaustion := u.exhaustion
    isMeleeLocked := u.isMeleeLocked
    currentTargetId := u.currentTarget }

/-- Embeds `GameStateSync.updateUnit(localUnit, remoteUnit)`: overwrite position,
velocity, movement target, combat state; re-apply the formation through
`setFormation` when it changed; resolve the current target by id against
the registry (`units` is the registry at the moment of the update). -/
def updateUnit (units : List Unit) (localUnit : Unit) (remote : RemoteUnit) :
    Unit :=
  let u1 := { localUnit with
    x := remote.x, y := remote.y, vx := remote.vx, vy := remote.vy
    angle := remote.angle, targetX := remote.targetX, targetY := remote.targetY
    entityCount := remote.entityCount, isReloading := remote.isReloading
    reloadProgress := remote.reloadProgress, exhaustion := remote.exhaustion
    isMeleeLocked := remote.isMeleeLocked }
  let u2 := if u1.formation ≠ remote.formation then u1.setFormation remote.formation
    else u1
  let u3 := { u2 with isSelected := remote.isSelected }
  match remote.currentTargetId with
  | some tid =>
      { u3 with currentTarget :=
          if ((units.find? fun v => decide (v.id = tid)).isSome) then some tid
          else none }
  | none => { u3 with currentTarget := none }

/-- In-place mutation of the registry entry with id `k` (the JS map lookup
returns the array element by reference; ids are unique by the data-model
invariant, so updating the first match is the array mutation). -/
def updateById (l : List Unit) (k : ℕ) (f : Unit → Unit) : List Unit :=
  match l with
  | [] => []
  | u :: rest => if u.id = k then f u :: rest else u :: updateById rest k f

/-- One iteration of the `mergeUnits` loop for one remote unit: update the
existing local unit when the id was present in the pre-loop lookup map,
otherwise create a unit (`GameEngine.createUnit` followed by overwriting
its id with the remote id) and update it. -/
def mergeStep (origIds : List ℕ) (acc : EngineState) (remote : RemoteUnit) :
    EngineState :=
  if remote.id ∈ origIds then
    let f := fun u => updateUnit acc.units u remote
    { acc with units := updateById acc.units remote.id f }
  else
    let newUnit := Unit.new acc.nextUnitId remote.type' remote.team remote.x remote.y
    let withId := { newUnit with id := remote.id }
    let updated := updateUnit (acc.units ++ [withId]) withId remote
    { acc with
      units := acc.units ++ [updated]
      nextUnitId := acc.nextUnitId + 1 }

/-- Embeds `GameStateSync.mergeUnits(remoteUnits)`: update or create units from
the snapshot, then remove every local unit whose id the snapshot does not
mention (dead units). -/
def mergeUnits (s : EngineState) (remoteUnits : List RemoteUnit) : EngineState :=
  let origIds := s.units.map Unit.id
  let s1 := remoteUnits.foldl (mergeStep origIds) s
  let seenIds := remoteUnits.map RemoteUnit.id
  { s1 with units := s1.units.filter fun u => decide (u.id ∈ seenIds) }

lemma setFormation_id (u : Unit) (f : Option Formation) :
    (u.setFormation f).id = u.id := by
  cases f with
  | none => rfl
  | some ff => cases ff <;> rfl

lemma updateUnit_id (l : List Unit) (u : Unit) (r : RemoteUnit) :
    (updateUnit l u r).id = u.id := by
  simp only [updateUnit]
  cases r.currentTargetId <;> split_ifs <;> simp [setFormation_id]

lemma updateById_ids (l : List Unit) (k : ℕ) (f : Unit → Unit)
    (hf : ∀ u, (f u).id = u.id) :
    (updateById l k f).map Unit.id = l.map Unit.id := by
  induction l with
  | nil => rfl
  | cons u rest ih =>
      simp only [updateById]
      split_ifs with h
      · simp [hf]
      · simp [ih]

lemma mergeStep_ids (origIds : List ℕ) (acc : EngineState) (r : RemoteUnit) :
    (mergeStep origIds acc r).units.map Unit.id =
      if r.id ∈ origIds then acc.units.map Unit.id
      else acc.units.map Unit.id ++ [r.id] := by
  simp only [mergeStep]
  split_ifs with h
  · exact updateById_ids _ _ _ fun u => updateUnit_id _ _ _
  · simp [updateUnit_id]

lemma foldl_mergeStep_ids (origIds : List ℕ) (tl : List RemoteUnit)
    (acc : EngineState) (i : ℕ) :
    i ∈ (tl.foldl (mergeStep origIds) acc).units.map Unit.id ↔
      i ∈ acc.units.map Unit.id ∨
        ∃ r ∈ tl, r.id = i ∧ r.id ∉ origIds := by
  induction tl generalizing acc with
  | nil => simp
  | cons hd tl ih =>
      simp only [List.foldl_cons]
      rw [ih]
      have hstep := mergeStep_ids origIds acc hd
      by_cases h : hd.id ∈ origIds
      · rw [hstep, if_pos h]
        constructor
        · rintro (hl | ⟨r, hr, hri, hro⟩)
          · exact Or.inl hl
          · exact Or.inr ⟨r, by simp [hr], hri, hro⟩
        · rintro (hl | ⟨r, hr, hri, hro⟩)
          · exact Or.inl hl
          · rcases List.mem_cons.1 hr with rfl | hr2
            · exact absurd h (hri ▸ hro)
            · exact Or.inr ⟨r, hr2, hri, hro⟩
      · rw [hstep, if_neg h]
        simp only [List.mem_append, List.mem_singleton]
        constructor
        · rintro ((hl | rfl) | ⟨r, hr, hri, hro⟩)
          · exact Or.inl hl
          · exact Or.inr ⟨hd, by simp, rfl, h⟩
          · exact Or.inr ⟨r, by simp [hr], hri, hro⟩
        · rintro (hl | ⟨r, hr, hri, hro⟩)
          · exact Or.inl (Or.inl hl)
          · rcases List.mem_cons.1 hr with rfl | hr2
            · exact Or.inl (Or.inr hri.symm)
            · exact Or.inr ⟨r, hr2, hri, hro⟩

/-- C8: after merging a snapshot, the local registry contains exactly the
unit ids listed in the snapshot: units present remotely but absent locally
are created with the remote id, and every local unit whose id is absent
from the snapshot's unit array no longer exists locally. -/
theorem c8_merge_ids (s : EngineState) (remoteUnits : List RemoteUnit) (i : ℕ) :
    (∃ u ∈ (GameStateSync.mergeUnits s remoteUnits).units, u.id = i) ↔
      i ∈ remoteUnits.map RemoteUnit.id := by
  constructor
  · rintro ⟨u, hu, rfl⟩
    simp only [GameStateSync.mergeUnits] at hu
    rw [List.mem_filter] at hu
    exact of_decide_eq_true hu.2
  · intro hi
    simp only [GameStateSync.mergeUnits]
    have hin : i ∈ (remoteUnits.foldl
        (GameStateSync.mergeStep (s.units.map Unit.id)) s).units.map Unit.id := by
      rw [GameStateSync.foldl_mergeStep_ids]
      by_cases horig : i ∈ s.units.map Unit.id
      · exact Or.inl horig
      · obtain ⟨r, hr, hri⟩ := List.mem_map.1 hi
        exact Or.inr ⟨r, hr, hri, by rwa [hri]⟩
    obtain ⟨u, hu, hui⟩ := List.mem_map.1 hin
    refine ⟨u, ?_, hui⟩
    rw [List.mem_filter]
    exact ⟨hu, decide_eq_true (by rwa [hui])⟩

end GameStateSync

end Game

namespace Game

namespace GameStateSync

/-- The derived-modifier tuple that `Unit.setFormation` assigns for each
formation value (fireRateBonus, accuracyBonus, movementBonus,
movementPenalty, vulnerabilityMultiplier, directionalDefense, damageBonus,
cavalryDefense). -/
def formationMods : Option Formation → ℝ × ℝ × ℝ × ℝ × ℝ × Bool × ℝ × ℝ
  | some .LINE => (0.9, 1.1, 1.0, 0.9, 1.0, false, 1.2, 1.0)
  | some .COLUMN => (1.0, 1.0, 1.3, 1.0, 1.5, false, 1.3, 1.0)
  | some .SQUARE => (0.85, 1.0, 1.0, 1.0, 1.0, true, 1.0, 3.0)
  | none => (1.0, 1.0, 1.0, 1.0, 1.0, false, 1.0, 1.0)

/-- A unit's derived modifiers as a tuple. -/
def modsOf (u : Unit) : ℝ × ℝ × ℝ × ℝ × ℝ × Bool × ℝ × ℝ :=
  (u.fireRateBonus, u.accuracyBonus, u.movementBonus, u.movementPenalty,
   u.vulnerabilityMultiplier, u.directionalDefense, u.damageBonus,
   u.cavalryDefense)

lemma mods_of_consistent (u : Unit) (hmods : u.setFormation u.formation = u) :
    modsOf u = formationMods u.formation := by
  rcases hf : u.formation with _ | f
  · have h := hmods
    rw [hf] at h
    rw [modsOf, ← h]
    rfl
  · have h := hmods
    rw [hf] at h
    rw [modsOf, ← h]
    cases f <;> rfl

open Classical in
lemma updateUnit_fresh (units : List Unit) (n k : ℕ) (ty : UnitType)
    (te : Team) (a b : ℝ) (r : RemoteUnit) :
    (updateUnit units { Unit.new n ty te a b with id := k } r).id = k ∧
    (updateUnit units { Unit.new n ty te a b with id := k } r).type' = ty ∧
    (updateUnit units { Unit.new n ty te a b with id := k } r).team = te ∧
    (updateUnit units { Unit.new n ty te a b with id := k } r).x = r.x ∧
    (updateUnit units { Unit.new n ty te a b with id := k } r).y = r.y ∧
    (updateUnit units { Unit.new n ty te a b with id := k } r).vx = r.vx ∧
    (updateUnit units { Unit.new n ty te a b with id := k } r).vy = r.vy ∧
    (updateUnit units { Unit.new n ty te a b with id := k } r).angle = r.angle ∧
    (updateUnit units { Unit.new n ty te a b with id := k } r).targetX = r.targetX ∧
    (updateUnit units { Unit.new n ty te a b with id := k } r).targetY = r.targetY ∧
    (updateUnit units { Unit.new n ty te a b with id := k } r).entityCount = r.entityCount ∧
    (updateUnit units { Unit.new n ty te a b with id := k } r).isReloading = r.isReloading ∧
    (updateUnit units { Unit.new n ty te a b with id := k } r).reloadProgress = r.reloadProgress ∧
    (updateUnit units { Unit.new n ty te a b with id := k } r).exhaustion = r.exhaustion ∧
    (updateUnit units { Unit.new n ty te a b with id := k } r).isMeleeLocked = r.isMeleeLocked ∧
    (updateUnit units { Unit.new n ty te a b with id := k } r).isSelected = r.isSelected ∧
    (updateUnit units { Unit.new n ty te a b with id := k } r).formation = r.formation ∧
    modsOf (updateUnit units { Unit.new n ty te a b with id := k } r) =
      formationMods r.formation ∧
    (updateUnit units { Unit.new n ty te a b with id := k } r).currentTarget =
      (match r.currentTargetId with
        | some tid =>
            if ((units.find? fun q => decide (q.id = tid)).isSome) then some tid
            else none
        | none => none) := by
  cases ty <;> rcases hf : r.formation with _ | f
  all_goals try cases f
  all_goals
    rcases hct : r.currentTargetId with _ | tid <;>
      simp [updateUnit, Unit.setFormation, Unit.new, modsOf, formationMods,
        hf, hct, CONFIG.FORMATION.LINE.RELOAD_BONUS,
        CONFIG.FORMATION.LINE.ACCURACY_BONUS,
        CONFIG.FORMATION.LINE.MOVEMENT_PENALTY,
        CONFIG.FORMATION.COLUMN.MOVEMENT_BONUS,
        CONFIG.FORMATION.COLUMN.VULNERABILITY,
        CONFIG.FORMATION.SQUARE.CAVALRY_DEFENSE]

end GameStateSync

end Game

namespace Game

/-- C9 (amended): merging a serialized unit into a fresh registry
reproduces every wire-format field exactly — identity, position, velocity,
facing, movement target, entity count, formation together with all derived
modifiers, selection, reload state, exhaustion and melee-lock — except the
current target, which is re-resolved by id against the merged registry and
therefore becomes `none` unless the serialized target id is the unit's own
id. The hypothesis states the data-model invariant that the unit's derived
modifiers are the pure function of its formation. -/
theorem c9_roundtrip_amended (u : Unit)
    (hmods : u.setFormation u.formation = u) :
    ∃ v, (GameStateSync.mergeUnits emptyEngine
        [GameStateSync.serializeUnit u]).units = [v] ∧
      v.id = u.id ∧ v.type' = u.type' ∧ v.team = u.team ∧
      v.x = u.x ∧ v.y = u.y ∧ v.vx = u.vx ∧ v.vy = u.vy ∧ v.angle = u.angle ∧
      v.targetX = u.targetX ∧ v.targetY = u.targetY ∧
      v.entityCount = u.entityCount ∧ v.formation = u.formation ∧
      GameStateSync.modsOf v = GameStateSync.modsOf u ∧
      v.isSelected = u.isSelected ∧ v.isReloading = u.isReloading ∧
      v.reloadProgress = u.reloadProgress ∧ v.exhaustion = u.exhaustion ∧
      v.isMeleeLocked = u.isMeleeLocked ∧
      v.currentTarget =
        (if u.currentTarget = some u.id then u.currentTarget else none) := by
  have hlist : (GameStateSync.mergeUnits emptyEngine
      [GameStateSync.serializeUnit u]).units =
      [GameStateSync.updateUnit
        [{ Unit.new 0 u.type' u.team u.x u.y with id := u.id }]
        { Unit.new 0 u.type' u.team u.x u.y with id := u.id }
        (GameStateSync.serializeUnit u)] := by
    simp [GameStateSync.mergeUnits, GameStateSync.mergeStep, emptyEngine,
      GameStateSync.updateUnit_id,
      show (GameStateSync.serializeUnit u).id = u.id from rfl,
      show (GameStateSync.serializeUnit u).type' = u.type' from rfl,
      show (GameStateSync.serializeUnit u).team = u.team from rfl,
      show (GameStateSync.serializeUnit u).x = u.x from rfl,
      show (GameStateSync.serializeUnit u).y = u.y from rfl]
  obtain ⟨h1, h2, h3, h4, h5, h6, h7, h8, h9, h10, h11, h12, h13, h14, h15,
      h16, h17, h18, h19⟩ :=
    GameStateSync.updateUnit_fresh
      [{ Unit.new 0 u.type' u.team u.x u.y with id := u.id }]
      0 u.id u.type' u.team u.x u.y (GameStateSync.serializeUnit u)
  refine ⟨_, hlist, h1, h2, h3, h4, h5, h6, h7, h8, h9, h10, h11, h17,
    h18.trans (GameStateSync.mods_of_consistent u hmods).symm,
    h16, h12, h13, h14, h15, ?_⟩
  rw [h19]
  have hser : (GameStateSync.serializeUnit u).currentTargetId = u.currentTarget :=
    rfl
  have hwid : ({ Unit.new 0 u.type' u.team u.x u.y with id := u.id } :
      Unit).id = u.id := rfl
  rcases hct : u.currentTarget with _ | tid
  · rw [hser, hct]
    simp
  · rw [hser, hct]
    by_cases htid : u.id = tid
    · simp [List.find?_singleton, hwid, htid]
    · have hne : ¬ (some tid = some u.id) := by
        intro h
        exact htid (Option.some_inj.mp h).symm
      simp [List.find?_singleton, hwid, htid, hne]

/-- Unit used by the round-trip witness: a fresh infantry unit with no
formation and no current target. -/
def rtSample : Unit := Unit.new 3 .INFANTRY .RED 10 20

/-- Witness for C9 (amended) at a concrete unit. -/
theorem c9_roundtrip_witness :
    ∃ v, (GameStateSync.mergeUnits emptyEngine
        [GameStateSync.serializeUnit rtSample]).units = [v] ∧
      v.id = rtSample.id ∧ v.type' = rtSample.type' ∧ v.team = rtSample.team ∧
      v.x = rtSample.x ∧ v.y = rtSample.y ∧ v.vx = rtSample.vx ∧
      v.vy = rtSample.vy ∧ v.angle = rtSample.angle ∧
      v.targetX = rtSample.targetX ∧ v.targetY = rtSample.targetY ∧
      v.entityCount = rtSample.entityCount ∧ v.formation = rtSample.formation ∧
      GameStateSync.modsOf v = GameStateSync.modsOf rtSample ∧
      v.isSelected = rtSample.isSelected ∧ v.isReloading = rtSample.isReloading ∧
      v.reloadProgress = rtSample.reloadProgress ∧
      v.exhaustion = rtSample.exhaustion ∧
      v.isMeleeLocked = rtSample.isMeleeLocked ∧
      v.currentTarget =
        (if rtSample.currentTarget = some rtSample.id then rtSample.currentTarget
         else none) :=
  c9_roundtrip_amended rtSample rfl

/-- Unit used by the round-trip counterexample: its current target is the
(absent) unit id 7. -/
def rtTargeted : Unit := { Unit.new 5 .INFANTRY .RED 10 20 with currentTarget := some 7 }

/-- Counterexample to C9 as stated: serializing a unit whose current target
is unit id 7 and merging it into a fresh registry yields a unit whose
current target is `none`, not id 7 — the id cannot be resolved in the fresh
registry, so this wire-format field is not reproduced exactly. -/
theorem c9_roundtrip_counterexample :
    ((GameStateSync.mergeUnits emptyEngine
        [GameStateSync.serializeUnit rtTargeted]).units.map
      Unit.currentTarget) = [none] ∧
    rtTargeted.currentTarget = some 7 ∧ (none : Option ℕ) ≠ some 7 := by
  refine ⟨rfl, rfl, by simp⟩

end Game

namespace Game

/-! The full engine tick (`GameEngine.update`). `Math.random()` is modelled
as a stream of reals consumed left to right through a state monad;
`Date.now()` is the explicit parameter `nowMs`; the visual-effects and
audio collaborators (which hold no simulation state) are presence flags
that gate the random draws and timer updates the source performs only when
they are present. -/

/-- A stream of pseudorandom draws. -/
abbrev RandStream : Type := ℕ → ℝ

/-- State monad threading the random stream. -/
abbrev Rand (α : Type) : Type := RandStream → α × RandStream

instance : Monad Rand where
  pure a := fun s => (a, s)
  bind m f := fun s => f (m s).1 (m s).2

/-- One `Math.random()` draw. -/
def rand : Rand ℝ := fun s => (s 0, fun n => s (n + 1))

open Classical in
/-- Embeds `Math.sign`. -/
def jsSign (x : ℝ) : ℝ := if x > 0 then 1 else if x < 0 then -1 else 0

open Classical in
/-- JavaScript `x || fallback` on a number. -/
def jsOrElse (x fallback : ℝ) : ℝ := if x = 0 then fallback else x

open Classical in
/-- Embeds `Unit.update(deltaTime)`: when melee-locked or in SQUARE, stop; else
steer toward the movement target with bounded turn rate, accelerate, clear
the target within 5 units of it, or decelerate when idle; finally clamp the
position to the canvas (the early-return branch skips the clamp). -/
def Unit.update (u : Unit) (deltaTime : ℝ) : Unit :=
  if u.isMeleeLocked = true ∨ u.formation = some .SQUARE then
    { u with speed := 0, vx := 0, vy := 0 }
  else
    let u' :=
      match u.targetX, u.targetY with
      | some tx, some ty =>
          let dx := tx - u.x
          let dy := ty - u.y
          let distToTarget := Real.sqrt (dx * dx + dy * dy)
          if distToTarget > 5 then
            let targetAngle := atan2 dy dx
            let angleDiff := normalizeAngle (targetAngle - u.angle)
            let angle2 := u.angle + jsSign angleDiff * min |angleDiff| u.turnRate
            let formationSpeedMod : ℝ := if distToTarget > 50 then 1.5 else 1.0
            let effectiveMaxSpeed := u.maxSpeed * u.movementBonus *
              u.movementPenalty * u.speedMultiplier * formationSpeedMod
            let speed2 := min effectiveMaxSpeed (u.speed + 200 * deltaTime)
            let vx2 := Real.cos angle2 * speed2 * deltaTime
            let vy2 := Real.sin angle2 * speed2 * deltaTime
            { u with
              angle := angle2, speed := speed2, vx := vx2, vy := vy2
              x := u.x + vx2, y := u.y + vy2 }
          else
            { u with
              targetX := none, targetY := none
              speed := max 0 (u.speed - 100 * deltaTime) }
      | _, _ =>
          { u with
            speed := max 0 (u.speed - 100 * deltaTime)
            vx := u.vx * 0.9, vy := u.vy * 0.9 }
    { u' with
      x := max u'.collisionRadius (min (CONFIG.CANVAS_WIDTH - u'.collisionRadius) u'.x)
      y := max u'.collisionRadius (min (CONFIG.CANVAS_HEIGHT - u'.collisionRadius) u'.y) }

namespace ReloadSystem

/-- Embeds `ReloadSystem.startReload(unit, reloadDuration)`: set the reloading
flags and scale the effective duration by the formation reload bonus and
the exhaustion reload multiplier; `lastFireTime` records the current time. -/
def startReload (u : Unit) (reloadDuration : Option ℝ) (nowMs : ℝ) : Unit :=
  if u.type' ≠ .INFANTRY ∧ u.type' ≠ .CANNON then u
  else
    let formationModifier := jsOr1 u.fireRateBonus
    let exhaustionPenalty := jsOr1 u.reloadMultiplier
    let baseDuration := match reloadDuration with
      | some d => d
      | none => u.reloadDuration
    { u with
      isReloading := true, canFire := false, reloadProgress := 0
      lastFireTime := nowMs
      reloadDuration := baseDuration * formationModifier * exhaustionPenalty }

/-- Embeds `ReloadSystem.completeReload(unit)`. -/
def completeReload (u : Unit) : Unit :=
  if u.type' ≠ .INFANTRY ∧ u.type' ≠ .CANNON then u
  else { u with isReloading := false, canFire := true, reloadProgress := 0 }

open Classical in
/-- Embeds `ReloadSystem.updateReload(unit, deltaTime)`. -/
def updateReload (u : Unit) (deltaTime : ℝ) : Unit :=
  if u.type' ≠ .INFANTRY ∧ u.type' ≠ .CANNON then u
  else if u.isReloading = false then u
  else
    let u' := { u with reloadProgress := u.reloadProgress + deltaTime / u.reloadDuration }
    if u'.reloadProgress ≥ 1.0 then completeReload u' else u'

end ReloadSystem

namespace CombatSystem

open Classical in
/-- Embeds `CombatSystem.applyPushBack(unit1, unit2)`: separate overlapping units
along the line between their centers, half the overlap each way. -/
def applyPushBack (u1 u2 : Unit) : Unit × Unit :=
  let dx := u2.x - u1.x
  let dy := u2.y - u1.y
  let distance := Real.sqrt (dx * dx + dy * dy)
  if distance = 0 then (u1, u2)
  else
    let minDistance := u1.collisionRadius + u2.collisionRadius
    let overlap := minDistance - distance
    if overlap > 0 then
      let pushForce := overlap * 0.5
      let nx := dx / distance
      let ny := dy / distance
      ({ u1 with x := u1.x - nx * pushForce, y := u1.y - ny * pushForce },
       { u2 with x := u2.x + nx * pushForce, y := u2.y + ny * pushForce })
    else (u1, u2)

open Classical in
/-- Embeds `CombatSystem.resolveMeleeCombat(unit1, unit2, deltaTime, visualEffects,
audioManager)`: the damage pipeline is `meleeDamagePair` on the first two
draws; the wounded-sound draws are consumed exactly when the corresponding
source branch runs (charge bonus above 1.5 with both collaborators
present); damage is applied to both sides, low-health cavalry starts
fleeing toward its table edge (one more draw for the scatter), combat
exhaustion is added inline (without recomputing the derived multipliers),
push-back separates the pair, and with audio present the melee clash
timers advance. -/
def resolveMeleeCombat (unit1 unit2 : Unit) (deltaTime : ℝ)
    (visual audio : Bool) : Rand (Unit × Unit) := do
  let r1 ← rand
  let r2 ← rand
  let cb1 := calculateCavalryChargeBonus unit1 unit2
  if unit1.type' = .CAVALRY ∧ cb1 > 1.5 ∧ visual = true ∧ audio = true then
    let _ ← rand
    pure ()
  else pure ()
  let cb2 := calculateCavalryChargeBonus unit2 unit1
  if unit2.type' = .CAVALRY ∧ cb2 > 1.5 ∧ visual = true ∧ audio = true then
    let _ ← rand
    pure ()
  else pure ()
  let d := meleeDamagePair unit1 unit2 r1 r2
  let w1 := unit1.takeDamage d.2
  let w1 ←
    if w1.type' = .CAVALRY ∧ w1.getHealthPercentage < 0.3 ∧ w1.isFleeing = false
    then do
      let rf ← rand
      pure { w1 with
        isFleeing := true
        targetX := some (if w1.team = .RED then 0 else 1200)
        targetY := some (w1.y + (rf - 0.5) * 200) }
    else pure w1
  let w2 := unit2.takeDamage d.1
  let w2 ←
    if w2.type' = .CAVALRY ∧ w2.getHealthPercentage < 0.3 ∧ w2.isFleeing = false
    then do
      let rf ← rand
      pure { w2 with
        isFleeing := true
        targetX := some (if w2.team = .RED then 0 else 1200)
        targetY := some (w2.y + (rf - 0.5) * 200) }
    else pure w2
  let w1 := meleeCombatExhaustion w1
  let w2 := meleeCombatExhaustion w2
  let p := applyPushBack w1 w2
  let w1 := p.1
  let w2 := p.2
  if audio = true then
    let w1 := { w1 with meleeTimer := w1.meleeTimer + deltaTime }
    let w2 := { w2 with meleeTimer := w2.meleeTimer + deltaTime }
    if w1.meleeTimer > 0.6 then
      pure ({ w1 with meleeTimer := 0.1 }, { w2 with meleeTimer := 0.1 })
    else pure (w1, w2)
  else pure (w1, w2)

open Classical in
/-- Embeds `CombatSystem.resolveProjectileHit(projectile, target, ...)`: long-range
random attenuation past 60% of the travel range, the 1.5 bonus against LINE
or COLUMN, and the 3.0 bonus against cannon targets; the damage is applied
to the target. -/
def resolveProjectileHit (p : Projectile) (target : Unit) : Rand Unit := do
  let distanceTraveled := Real.sqrt ((p.x - p.startX) ^ 2 + (p.y - p.startY) ^ 2)
  let rangeRatio := min 1.0 (distanceTraveled / p.range)
  let damage1 ←
    if rangeRatio > 0.6 then do
      let r ← rand
      pure (p.damage * (0.2 + r * 0.8))
    else pure p.damage
  let damage2 :=
    if target.formation = some .LINE ∨ target.formation = some .COLUMN then
      damage1 * 1.5
    else damage1
  let damage3 := if target.type' = .CANNON then damage2 * 3.0 else damage2
  pure (target.takeDamage damage3)

end CombatSystem

end Game

namespace Game

/-- Fallback unit for in-range list indexing (never reached: all indices
used below are within bounds). -/
def defaultUnit : Unit := Unit.new 0 .INFANTRY .RED 0 0

namespace GameEngine

open Classical in
/-- Embeds `GameEngine.isTargetValid(unit, target)`: range (squared), fire arc and
line of sight. -/
def isTargetValid (units : List Unit) (u target : Unit) : Prop :=
  let dx := target.x - u.x
  let dy := target.y - u.y
  ¬ (dx * dx + dy * dy > u.fireRange * u.fireRange) ∧
  CombatSystem.isInFireArc u target ∧
  (LOSSystem.checkLOS u target units).hasLOS = true

open Classical in
/-- Embeds `GameEngine.acquireTarget(unit)`: scan all living enemies and keep the
nearest one that is in range, in the fire arc and in line of sight; returns
its id. -/
def acquireTarget (units : List Unit) (u : Unit) : Option ℕ :=
  if u.type' ≠ .INFANTRY ∧ u.type' ≠ .CANNON then none
  else
    let enemies := units.filter fun v => decide (v.team ≠ u.team ∧ ¬v.isDead)
    let best := enemies.foldl
      (fun (acc : Option (ℕ × ℝ)) enemy =>
        let distance := Real.sqrt ((enemy.x - u.x) * (enemy.x - u.x) +
          (enemy.y - u.y) * (enemy.y - u.y))
        if distance > u.fireRange then acc
        else if ¬ CombatSystem.isInFireArc u enemy then acc
        else if ¬ (LOSSystem.checkLOS u enemy units).hasLOS = true then acc
        else
          match acc with
          | none => some (enemy.id, distance)
          | some b => if distance < b.2 then some (enemy.id, distance) else acc)
      none
    best.map Prod.fst

open Classical in
/-- Step 4 of the update loop for one ranged unit: keep a still-valid
current target (a target id no longer in the registry counts as dead),
rescan on loss, or rescan on the unit's staggered `(id + frame) % 15`
schedule. -/
def targetAcquisitionStep (units : List Unit) (frame : ℕ) (u : Unit) : Unit :=
  if (u.type' = .INFANTRY ∨ u.type' = .CANNON) ∧ ¬u.isDead then
    match u.currentTarget with
    | some tid =>
        match units.find? (fun v => decide (v.id = tid)) with
        | some tgt =>
            if tgt.isDead ∨ ¬ isTargetValid units u tgt then
              { u with currentTarget := acquireTarget units u }
            else if (u.id + frame) % 15 = 0 then
              { u with currentTarget := acquireTarget units u }
            else u
        | none => { u with currentTarget := acquireTarget units u }
    | none =>
        if (u.id + frame) % 15 = 0 then
          { u with currentTarget := acquireTarget units u }
        else u
  else u

open Classical in
/-- The first unit (in registry order) hit by a projectile: hostile, alive,
within collision radius plus ball radius. -/
def projectileHitIndex (units : List Unit) (p : Projectile) : Option ℕ :=
  units.findIdx? fun q => decide (q.team ≠ p.team ∧ ¬q.isDead ∧
    Real.sqrt ((q.x - p.x) * (q.x - p.x) + (q.y - p.y) * (q.y - p.y)) <
      q.collisionRadius + p.radius)

open Classical in
/-- Step 4b of the update loop: projectiles are advanced and checked for
impact. The source iterates the array backwards (splicing as it goes), so
the list is processed in reverse order, threading the damaged units;
surviving projectiles keep their original order. -/
def projectileStep (units : List Unit) (ps : List Projectile) (dt : ℝ) :
    Rand (List Unit × List Projectile) :=
  ps.reverse.foldlM
    (fun (acc : List Unit × List Projectile) p => do
      let p' := p.update dt
      if p'.isDead = true then pure (acc.1, acc.2)
      else
        match projectileHitIndex acc.1 p' with
        | some i =>
            match acc.1.get? i with
            | some victim => do
                let victim' ← CombatSystem.resolveProjectileHit p' victim
                pure (acc.1.set i victim', acc.2)
            | none => pure (acc.1, acc.2)
        | none => pure (acc.1, p' :: acc.2))
    (units, ([] : List Projectile))

open Classical in
/-- Step 5 of the update loop: every ready ranged unit with a target fires,
spawning a projectile for cannon, applying instant musket damage otherwise,
and starts its reload. Units are visited in registry order, with earlier
shots visible to later ones. -/
def autoFireStep (units : List Unit) (ps : List Projectile)
    (visual audio : Bool) (nowMs : ℝ) : Rand (List Unit × List Projectile) :=
  (List.range units.length).foldlM
    (fun (acc : List Unit × List Projectile) i => do
      let u := acc.1.getD i defaultUnit
      if (u.type' = .INFANTRY ∨ u.type' = .CANNON) ∧ u.canFire = true ∧
          u.currentTarget.isSome ∧ u.isReloading = false then
        match u.currentTarget with
        | some tid =>
            match acc.1.find? (fun v => decide (v.id = tid)) with
            | some tgt => do
                let rBand ← rand
                let rHit ← rand
                let rJit ←
                  if audio = true ∧ u.type' = .CANNON then rand else pure 0
                let res := CombatSystem.resolveMusketFire u tgt rBand rHit rJit
                  visual audio
                let shooter2 := ReloadSystem.startReload
                  { res.2.1 with isReloading := true }
                  (some (jsOrElse res.2.1.reloadDuration
                    CONFIG.INFANTRY.RELOAD_DURATION)) nowMs
                let units2 := (GameStateSync.updateById acc.1 tid
                  fun _ => res.2.2).set i shooter2
                let ps2 := match res.1.projectile with
                  | some proj => acc.2 ++ [proj]
                  | none => acc.2
                pure (units2, ps2)
            | none => pure (acc.1, acc.2)
        | none => pure (acc.1, acc.2)
      else pure (acc.1, acc.2))
    (units, ps)

/-- The ordered index pairs `(i, j)` with `i < j < n` visited by the nested
collision loops. -/
def collisionPairs (n : ℕ) : List (ℕ × ℕ) :=
  (List.range n).flatMap fun i =>
    ((List.range n).filter fun j => decide (i < j)).map fun j => (i, j)

open Classical in
/-- Step 6 of the update loop (`GameEngine.checkCollisions`): bounding-box
pre-filter, exact circle test, then melee (with both units pinned) for
hostile pairs or push-back for friendly pairs, mutating the registry as the
pair loop advances. -/
def checkCollisions (units : List Unit) (dt : ℝ) (visual audio : Bool) :
    Rand (List Unit) :=
  (collisionPairs units.length).foldlM
    (fun cur ij => do
      let u1 := cur.getD ij.1 defaultUnit
      let u2 := cur.getD ij.2 defaultUnit
      let dx := u2.x - u1.x
      let maxDist := u1.collisionRadius + u2.collisionRadius + 10
      if |dx| > maxDist then pure cur
      else
        let dy := u2.y - u1.y
        if |dy| > maxDist then pure cur
        else
          let distance := Real.sqrt (dx * dx + dy * dy)
          let minDistance := u1.collisionRadius + u2.collisionRadius
          if distance < minDistance then
            if u1.team ≠ u2.team then do
              let pair ← CombatSystem.resolveMeleeCombat
                { u1 with isMeleeLocked := true }
                { u2 with isMeleeLocked := true } dt visual audio
              pure ((cur.set ij.1 pair.1).set ij.2 pair.2)
            else
              let pair := CombatSystem.applyPushBack u1 u2
              pure ((cur.set ij.1 pair.1).set ij.2 pair.2)
          else pure cur)
    units

open Classical in
/-- Step 8 of the update loop (`GameEngine.checkWinCondition`). -/
def checkWinCondition (s : EngineState) : EngineState :=
  let redAlive := (s.units.filter fun u => decide (u.team = .RED)).length
  let blueAlive := (s.units.filter fun u => decide (u.team = .BLUE)).length
  if redAlive = 0 ∧ blueAlive > 0 then
    { s with gameOver := true, winner := some .BLUE }
  else if blueAlive = 0 ∧ redAlive > 0 then
    { s with gameOver := true, winner := some .RED }
  else s

open Classical in
/-- Step 1 of the update loop for one unit: kinematics, melee-lock
bookkeeping, and the melee-timer grace period (`lastMeleeTime` is never
assigned anywhere in the source, so `Date.now() - undefined` is `NaN` and
the comparison is always false; the `none` case keeps that behavior). -/
def unitFrameStep (dt nowMs : ℝ) (u : Unit) : Unit :=
  let u1 := Unit.update u dt
  let u2 := { u1 with wasMeleeLocked := u1.isMeleeLocked, isMeleeLocked := false }
  let graceExpired : Prop :=
    match u2.lastMeleeTime with
    | some t => nowMs - t > 2000
    | none => False
  if u2.wasMeleeLocked = false ∧ graceExpired then { u2 with meleeTimer := 0 }
  else u2

open Classical in
/-- Embeds `GameEngine.update(deltaTime)`: the guard on the game-over flag, then
the fixed step order — kinematics and lock bookkeeping, reload timers,
exhaustion, throttled target acquisition, projectile motion and impacts,
auto-fire, collision/melee resolution, removal of dead units (from the
registry and the selection), and the win check. The visual-effects and
audio update steps touch no simulation state and are omitted. -/
def update (s : EngineState) (deltaTime nowMs : ℝ) (visual audio : Bool) :
    Rand EngineState :=
  if s.gameOver = true then pure s
  else do
    let gameTime := s.gameTime + deltaTime
    let units1 := s.units.map (unitFrameStep deltaTime nowMs)
    let units2 := units1.map fun u =>
      if (u.type' = .INFANTRY ∨ u.type' = .CANNON) ∧ u.isReloading = true then
        ReloadSystem.updateReload u deltaTime
      else u
    let units3 := units2.map fun u => ExhaustionSystem.update u deltaTime
    let frame := ⌊gameTime * 60⌋₊
    let units4 := units3.map (targetAcquisitionStep units3 frame)
    let step4b ← projectileStep units4 s.projectiles deltaTime
    let step5 ← autoFireStep step4b.1 step4b.2 visual audio nowMs
    let units7 ← checkCollisions step5.1 deltaTime visual audio
    let unitsAlive := units7.filter fun u => decide (¬u.isDead)
    let selected := s.selectedUnits.filter fun i =>
      decide (∃ u ∈ unitsAlive, u.id = i)
    pure (checkWinCondition
      { s with
        units := unitsAlive, selectedUnits := selected
        projectiles := step5.2, gameTime := gameTime })

end GameEngine

/-- C10: once the game-over flag is set, advancing the simulation is a
no-op: for every delta-time, time stamp, collaborator flags and random
stream, `GameEngine.update` returns the state unchanged (units,
projectiles, game time, game-over flag and winner all keep their values)
and consumes no randomness. -/
theorem c10_gameover_update_noop (s : EngineState) (dt nowMs : ℝ)
    (visual audio : Bool) (σ : RandStream) (h : s.gameOver = true) :
    GameEngine.update s dt nowMs visual audio σ = (s, σ) := by
  simp only [GameEngine.update, h, if_true]
  rfl

/-- Witness for C10 at a concrete game-over state, delta-time and stream. -/
theorem c10_gameover_update_noop_witness :
    GameEngine.update { emptyEngine with gameOver := true } (1/30) 5 true true
      (fun _ => 0) = ({ emptyEngine with gameOver := true }, fun _ => 0) :=
  c10_gameover_update_noop { emptyEngine with gameOver := true } (1/30) 5
    true true (fun _ => 0) rfl

end Game
